import Mathlib

/-! # nRF8001 driver (firmware/nrf.c, firmware/uart.c, firmware/spi.c)

Shallow embedding of the chip driver of the AVR nRF8001 example system.

* Bytes are natural numbers; the SPI primitive reduces what it shifts in and
  out modulo 256.
* The target is an ATmega328 built with avr-gcc, whose `int` is 16 bits wide.
  Expressions the C code evaluates in `int` (`1 << i`, `data << (8 * i)`) are
  modelled by `int_shl`, and their conversion to `uint64_t` by `to_u64`.
* The peer is a script: the list of bytes it shifts out on MISO, one per SPI
  cycle.  A run that needs a byte after the script has ended has no result
  in the model (`Fault.peer_silent`).
* An access to `data[i]` of a 30 byte frame buffer with `30 ≤ i` has no
  result in the model (`Fault.out_of_bounds`).
* Busy waits on hardware flags (RDYN, UDRE0, SPIF) and delays are assumed to
  complete and are not modelled.
* `nrf/services.h` (generated by nRFgo Studio) is not part of the sources; its
  constants and tables are the fields of `Services`.
-/

namespace Nrf8001

/-! ## nrf.h -/

def NRF_OPMODE_TEST : Nat := 0x01
def NRF_OPMODE_SETUP : Nat := 0x02
def NRF_OPMODE_STANDBY : Nat := 0x03

def NRF_STATE_DISCONNECT : Nat := 0x00
def NRF_STATE_CONNECTING : Nat := 0x01
def NRF_STATE_CONNECTED : Nat := 0x02

def NRF_CMD_SETUP : Nat := 0x06
def NRF_CMD_GET_TEMPERATURE : Nat := 0x0c
def NRF_CMD_CONNECT : Nat := 0x0f
def NRF_CMD_SEND_DATA : Nat := 0x15
def NRF_ERR_NO_ERROR : Nat := 0x00
def NRF_EVT_DEVICE_STARTED : Nat := 0x81
def NRF_EVT_CMD_RESPONSE : Nat := 0x84
def NRF_EVT_CONNECTED : Nat := 0x85
def NRF_EVT_DISCONNECTED : Nat := 0x86
def NRF_EVT_PIPE_STATUS : Nat := 0x88
def NRF_EVT_DATA_RECEIVED : Nat := 0x8c

/-- The `struct nrf_setup_data` of nrf.h: a status byte and 32 bytes of data. -/
structure nrf_setup_data where
  status : Nat
  data : List Nat
deriving DecidableEq, Repr

/-- The `struct nrf_tx` of nrf.h; `data` stands for `uint8_t data[30]`. -/
structure nrf_tx where
  length : Nat
  command : Nat
  data : List Nat
deriving DecidableEq, Repr

/-- The `struct nrf_rx` of nrf.h; `data` stands for `uint8_t data[30]`. -/
structure nrf_rx where
  debug : Nat
  length : Nat
  data : List Nat
deriving DecidableEq, Repr

/-- The `struct service_pipe_mapping` of nrf.h; the two enumerations come from
the missing ACI headers and are kept as their numeric values. -/
structure service_pipe_mapping where
  store : Nat
  type : Nat
deriving DecidableEq, Repr

/-- The constants and tables of `nrf/services.h` and of the ACI headers it pulls
in, none of which is among the sources. -/
structure Services where
  NB_SETUP_MESSAGES : Nat
  SETUP_MESSAGES_CONTENT : List nrf_setup_data
  NUMBER_OF_PIPES : Nat
  SERVICES_PIPE_TYPE_MAPPING_CONTENT : List service_pipe_mapping
  PIPE_EXAMPLE_SERVICE_BUTTON_STATE_TX : Nat
  PIPE_EXAMPLE_SERVICE_PWM_DUTY_CYCLE_RX : Nat
  ACI_STATUS_TRANSACTION_CONTINUE : Nat
  ACI_STATUS_TRANSACTION_COMPLETE : Nat
  ACI_STORE_LOCAL : Nat
  ACI_TX : Nat
deriving DecidableEq, Repr

/-- What can leave a run without a result in the model. -/
inductive Fault where
  | peer_silent
  | out_of_bounds
deriving DecidableEq, Repr

/-- One call of `nrf_transmit` as a spy sees it: the frame behind `tx` (`none`
for `NULL`) and whether `rx` was `NULL`. -/
structure Xfer where
  tx : Option nrf_tx
  rx_null : Bool
deriving DecidableEq, Repr

/-- The part of the machine `nrf_transmit` works on: PORTB (REQN), the SPI
lines, `dummy_rx`, and the log of its calls. `miso` holds the bytes the peer
still has to shift out, `mosi` the bytes shifted out to it so far. -/
structure Bus where
  PORTB : Nat
  dummy_rx : nrf_rx
  miso : List Nat
  mosi : List Nat
  calls : List Xfer
deriving DecidableEq, Repr

/-- The globals of nrf.c, the I/O registers the driver writes, the characters
written to the UART so far, and the bus. -/
structure State where
  nrf_connect_state : Nat
  rx : nrf_rx
  opmode : Nat
  pipes : Nat
  pipes_open : Nat
  tx : nrf_tx
  nrf_tx_pipe_map : Nat
  PORTD : Nat
  OCR0A : Nat
  TCCR0A : Nat
  TCCR0B : Nat
  uart : List Char
  bus : Bus
deriving DecidableEq, Repr

/-- The frame `memset(&tx, 0, sizeof(tx))` leaves; also the static `dummy_tx`,
which is never written. -/
def tx_zero : nrf_tx := ⟨0, 0, List.replicate 30 0⟩

/-- The frame `memset(&rx, 0, sizeof(rx))` leaves. -/
def rx_zero : nrf_rx := ⟨0, 0, List.replicate 30 0⟩

def dummy_tx : nrf_tx := tx_zero

/-- Reads `rx->data[i]`. -/
def nrf_rx.at (rx : nrf_rx) (i : Nat) : Nat := rx.data.getD i 0

/-- Reads `tx->data[i]`. -/
def nrf_tx.at (tx : nrf_tx) (i : Nat) : Nat := tx.data.getD i 0

/-! ## 16 bit `int` arithmetic of avr-gcc -/

/-- Conversion to `int8_t`. -/
def int8 (x : Int) : Int := (x + 128) % 256 - 128

/-- Conversion to the 16 bit `int`. -/
def int16 (x : Int) : Int := (x + 32768) % 65536 - 32768

/-- Conversion to `int32_t`. -/
def int32 (x : Int) : Int := (x + 2147483648) % 4294967296 - 2147483648

/-- Left shift `a << n` evaluated in the 16 bit `int`. For `n < 16` the result
wraps into `int` (gcc defines signed left shift so); a count of 16 or more is
undefined in C and the model takes 0, what the shift loop of avr-gcc leaves. -/
def int_shl (a : Int) (n : Nat) : Int :=
  if n < 16 then int16 (a * 2 ^ n) else 0

/-- Conversion of an `int` to `uint64_t` (sign extension). -/
def to_u64 (x : Int) : Nat := (x % 18446744073709551616).toNat

/-- Complement `~x` of a `uint64_t`. -/
def not_u64 (x : Nat) : Nat := 18446744073709551615 - x % 18446744073709551616

/-! ## uart.c

The UART functions only append to the output; they are functions on the list
of characters written so far. -/

def uart_putchar (d : Char) (out : List Char) : List Char := out ++ [d]

def uart_newline (out : List Char) : List Char :=
  uart_putchar '\n' (uart_putchar '\r' out)

def uart_print_pgm (data : String) (out : List Char) : List Char :=
  data.toList.foldl (fun o c => uart_putchar c o) out

def hexvals : List Char := "0123456789abcdef".toList

def uart_puthex (c : Nat) (out : List Char) : List Char :=
  uart_putchar (hexvals.getD (c &&& 0x0f) ' ')
    (uart_putchar (hexvals.getD ((c >>> 4) &&& 0x0f) ' ') out)

/-- The loop of `tobuf`: `for (i = 0; i < 10 && number; i++)`. -/
def tobuf_loop : Nat → Int → Int → List Char → Int × List Char
  | 0, i, _, buf => (i, buf)
  | fuel + 1, i, number, buf =>
    if i < 10 ∧ number ≠ 0 then
      let next_digit := Int.tdiv number 10
      let buf := buf.set i.toNat
        (Char.ofNat ((int8 (int8 (number - next_digit * 10) + 48) % 256).toNat))
      tobuf_loop fuel (int8 (i + 1)) next_digit buf
    else (i, buf)

/-- Ten iterations at most: the value returned is `--i` as a `uint8_t`. -/
def tobuf (number : Int) (buf : List Char) : Nat × List Char :=
  let number := if number < 0 then int32 (number * -1) else number
  let r := tobuf_loop 11 0 number buf
  (((int8 (r.1 - 1)) % 256).toNat, r.2)

/-- The loop `while (i < --digits) uart_putchar('0')` of `uart_putint`. -/
def putint_pad : Nat → Int → Int → List Char → List Char
  | 0, _, _, out => out
  | fuel + 1, i, digits, out =>
    let digits := int8 (digits - 1)
    if i < digits then putint_pad fuel i digits (uart_putchar '0' out) else out

/-- The loop `while (i >= 0) uart_putchar(buf[i--])` of `uart_putint`. -/
def putint_digits : Nat → Int → List Char → List Char → List Char
  | 0, _, _, out => out
  | fuel + 1, i, buf, out =>
    if 0 ≤ i then putint_digits fuel (int8 (i - 1)) buf (uart_putchar (buf.getD i.toNat ' ') out)
    else out

/-- Prints a signed number with a minimum number of digits. `buf` is an
uninitialised array of ten characters; the entries read have been written by
`tobuf` before. -/
def uart_putint (number : Int) (digits : Int) (out : List Char) : List Char :=
  let out := if number < 0 then uart_putchar '-' out else out
  let number := if number < 0 then int32 (number * -1) else number
  let r := tobuf number (List.replicate 10 ' ')
  let i := int8 r.1
  putint_digits 129 i r.2 (putint_pad 257 i digits out)

/-! ## spi.c -/

/-- One SPI cycle: shifts `data` out and returns the byte the peer shifts in. -/
def spi_transmit (data : Nat) (b : Bus) : Except Fault (Nat × Bus) :=
  match b.miso with
  | [] => .error .peer_silent
  | x :: rest => .ok (x % 256, { b with miso := rest, mosi := b.mosi ++ [data % 256] })

/-! ## nrf.c -/

def led_setup_on (s : State) : State := { s with PORTD := s.PORTD ||| 0x80 }
def led_setup_off (s : State) : State := { s with PORTD := s.PORTD &&& 0x7f }
def led_connect_on (s : State) : State := { s with PORTD := s.PORTD ||| 0x10 }
def led_connect_off (s : State) : State := { s with PORTD := s.PORTD &&& 0xef }

def ble_reset_high (b : Bus) : Bus := { b with PORTB := b.PORTB ||| 0x01 }
def ble_reset_low (b : Bus) : Bus := { b with PORTB := b.PORTB &&& 0xfe }
def reqn_set_high (b : Bus) : Bus := { b with PORTB := b.PORTB ||| 0x04 }
def reqn_set_low (b : Bus) : Bus := { b with PORTB := b.PORTB &&& 0xfb }

/-- The payload loop of `nrf_transmit`:
`for (i = 0; i < tx->length - 1 || i < rx->length; i++) rx->data[i] = spi_transmit(tx->data[i]);`,
the comparison with `tx->length - 1` made in `int`. An index of 30 or more is
a fault, so 31 rounds of fuel are never used up. -/
def transmit_loop (tx : nrf_tx) : Nat → Nat → nrf_rx → Bus → Except Fault (nrf_rx × Bus)
  | 0, _, _, _ => .error .out_of_bounds
  | fuel + 1, i, rx, b =>
    if (i : Int) < (tx.length : Int) - 1 ∨ i < rx.length then
      if 30 ≤ i then .error .out_of_bounds
      else
        match spi_transmit (tx.at i) b with
        | .error e => .error e
        | .ok (x, b) => transmit_loop tx fuel (i + 1) { rx with data := rx.data.set i x } b
    else .ok (rx, b)

/-- The function `nrf_transmit(tx, rx)`. `none` stands for `NULL`; the frame
behind `rx` is passed in and the frame left there is returned (`none` when `rx`
is `NULL`, where the bytes go to `dummy_rx`). -/
def nrf_transmit (tx : Option nrf_tx) (rx : Option nrf_rx) (b : Bus) :
    Except Fault (Option nrf_rx × Bus) :=
  let b := { b with calls := b.calls ++ [⟨tx, rx.isNone⟩] }
  let b := reqn_set_low b
  let t := match tx with
    | none => dummy_tx
    | some t => t
  let b := match rx with
    | none => { b with dummy_rx := rx_zero }
    | some _ => b
  let r := match rx with
    | none => b.dummy_rx
    | some r => r
  match spi_transmit t.length b with
  | .error e => .error e
  | .ok (x, b) =>
    let r := { r with debug := x }
    match spi_transmit t.command b with
    | .error e => .error e
    | .ok (y, b) =>
      let r := { r with length := y }
      match transmit_loop t 31 0 r b with
      | .error e => .error e
      | .ok (r, b) =>
        let b := reqn_set_high b
        match rx with
        | none => .ok (none, { b with dummy_rx := r })
        | some _ => .ok (some r, b)

/-- The macro `nrf_send(tx)`: `nrf_transmit(tx, NULL)`. -/
def nrf_send (tx : nrf_tx) (b : Bus) : Except Fault Bus :=
  match nrf_transmit (some tx) none b with
  | .error e => .error e
  | .ok (_, b) => .ok b

/-- The macro `nrf_receive(rx)`: `nrf_transmit(NULL, rx)`. -/
def nrf_receive (rx : nrf_rx) (b : Bus) : Except Fault (nrf_rx × Bus) :=
  match nrf_transmit none (some rx) b with
  | .error e => .error e
  | .ok (r, b) => .ok (r.getD rx, b)

/-- Both pointers given: `nrf_transmit(tx, rx)`. -/
def nrf_transmit_both (tx : nrf_tx) (rx : nrf_rx) (b : Bus) : Except Fault (nrf_rx × Bus) :=
  match nrf_transmit (some tx) (some rx) b with
  | .error e => .error e
  | .ok (r, b) => .ok (r.getD rx, b)

/-- The function `nrf_print_rx`: the length in brackets, then the first
`length` data bytes in hex. -/
def nrf_print_rx (rx : nrf_rx) (out : List Char) : List Char :=
  let out := uart_putchar '[' out
  let out := uart_putint rx.length 2 out
  let out := uart_putchar ']' out
  let out := (List.range rx.length).foldl
    (fun o i => uart_puthex (rx.at i) (uart_putchar ' ' o)) out
  uart_newline out

/-- The loop `for (i = 1; i <= NUMBER_OF_PIPES; i++)` that lists the open
pipes; `1 << i` is an `int`, converted to `uint64_t` for the `&`. The counter
is 8 bits wide: this is the loop of the source for `NUMBER_OF_PIPES ≤ 254`. -/
def print_open_pipes (cfg : Services) (pipes_open : Nat) (out : List Char) : List Char :=
  (List.range' 1 cfg.NUMBER_OF_PIPES).foldl
    (fun o i =>
      if pipes_open &&& to_u64 (int_shl 1 i) ≠ 0 then
        uart_putchar ' ' (uart_putint i 1 o)
      else o) out

/-- The element `setup_data[cnt]`; elements the initialiser does not give are
zero. -/
def setup_data (cfg : Services) (cnt : Nat) : nrf_setup_data :=
  cfg.SETUP_MESSAGES_CONTENT.getD cnt ⟨0, List.replicate 32 0⟩

/-- The frame `memcpy_P(&tx, &setup_data[cnt].data, sizeof(struct nrf_tx))`
leaves in `tx`: the 32 data bytes laid over length, command and data. -/
def setup_tx (d : nrf_setup_data) : nrf_tx :=
  ⟨d.data.getD 0 0, d.data.getD 1 0, (List.range 30).map (fun j => d.data.getD (j + 2) 0)⟩

/-- The loop `for (cnt = 0; cnt < NB_SETUP_MESSAGES; cnt++)` of `nrf_setup`,
with its 8 bit counter. The result is `true` when the loop ran to its end and
`false` at `return -3`. Every round makes an exchange, which takes at least
two bytes of the script, so fuel of the script length plus one outlasts it. -/
def setup_send_loop (cfg : Services) : Nat → Nat → State → Except Fault (Bool × State)
  | 0, _, _ => .error .peer_silent
  | fuel + 1, cnt, s =>
    if cnt < cfg.NB_SETUP_MESSAGES then
      let s := { s with rx := rx_zero }
      let s := { s with tx := setup_tx (setup_data cfg cnt) }
      match nrf_transmit_both s.tx s.rx s.bus with
      | .error e => .error e
      | .ok (r, b) =>
        let s := { s with rx := r, bus := b }
        if s.rx.length = 0 then
          let s := { s with uart := nrf_print_rx s.rx s.uart }
          setup_send_loop cfg fuel ((cnt + 1) % 256) s
        else
          let s := { s with uart := nrf_print_rx s.rx s.uart }
          if s.rx.at 0 ≠ NRF_EVT_CMD_RESPONSE ∨ s.rx.at 1 ≠ NRF_CMD_SETUP ∨
              s.rx.at 2 ≠ cfg.ACI_STATUS_TRANSACTION_CONTINUE then
            .ok (false, s)
          else setup_send_loop cfg fuel ((cnt + 1) % 256) s
    else .ok (true, s)

/-- The first `do ... while` of `nrf_setup`: receive while the frame is
CommandResponse / Setup / TransactionContinue. -/
def recv_responses_loop (cfg : Services) : Nat → State → Except Fault State
  | 0, _ => .error .peer_silent
  | fuel + 1, s =>
    let s := { s with rx := rx_zero }
    match nrf_receive s.rx s.bus with
    | .error e => .error e
    | .ok (r, b) =>
      let s := { s with rx := r, bus := b }
      let s := { s with uart := nrf_print_rx s.rx s.uart }
      if s.rx.at 0 = NRF_EVT_CMD_RESPONSE ∧ s.rx.at 1 = NRF_CMD_SETUP ∧
          s.rx.at 2 = cfg.ACI_STATUS_TRANSACTION_CONTINUE then
        recv_responses_loop cfg fuel s
      else .ok s

/-- The second `do ... while` of `nrf_setup`: receive until a DeviceStarted
frame. -/
def wait_started_loop : Nat → State → Except Fault State
  | 0, _ => .error .peer_silent
  | fuel + 1, s =>
    let s := { s with rx := rx_zero }
    match nrf_receive s.rx s.bus with
    | .error e => .error e
    | .ok (r, b) =>
      let s := { s with rx := r, bus := b }
      if s.rx.at 0 ≠ NRF_EVT_DEVICE_STARTED then wait_started_loop fuel s
      else .ok s

/-- The function `nrf_setup`; the result is the value returned and the state
left. -/
def nrf_setup (cfg : Services) (s : State) : Except Fault (Int × State) :=
  let s := { s with bus := ble_reset_high s.bus }
  let s := { s with rx := rx_zero }
  match nrf_receive s.rx s.bus with
  | .error e => .error e
  | .ok (r, b) =>
    let s := { s with rx := r, bus := b }
    if s.rx.at 0 ≠ NRF_EVT_DEVICE_STARTED ∨ s.rx.at 2 ≠ NRF_ERR_NO_ERROR then .ok (-1, s)
    else
      let s := { s with opmode := s.rx.at 1 }
      let s := { s with pipes := s.rx.at 3 }
      if s.opmode ≠ NRF_OPMODE_SETUP then .ok (-2, s)
      else
        match setup_send_loop cfg (s.bus.miso.length + 1) 0 s with
        | .error e => .error e
        | .ok (false, s) => .ok (-3, s)
        | .ok (true, s) =>
          match recv_responses_loop cfg (s.bus.miso.length + 1) s with
          | .error e => .error e
          | .ok s =>
            if s.rx.at 0 ≠ NRF_EVT_CMD_RESPONSE ∨ s.rx.at 1 ≠ NRF_CMD_SETUP ∨
                s.rx.at 2 ≠ cfg.ACI_STATUS_TRANSACTION_COMPLETE then
              .ok (-4, s)
            else
              match wait_started_loop (s.bus.miso.length + 1) s with
              | .error e => .error e
              | .ok s =>
                let s := { s with uart := nrf_print_rx s.rx s.uart }
                if s.rx.at 2 ≠ NRF_ERR_NO_ERROR then .ok (-5, s)
                else
                  let s := { s with opmode := s.rx.at 1 }
                  let s := { s with pipes := s.rx.at 3 }
                  let s := led_setup_on s
                  .ok (0, s)

/-- The function `nrf_reset_module`. -/
def nrf_reset_module (cfg : Services) (s : State) : Except Fault (Int × State) :=
  let s := led_setup_off s
  let s := led_connect_off s
  let s := { s with bus := ble_reset_low s.bus }
  let s := { s with nrf_connect_state := NRF_STATE_DISCONNECT }
  nrf_setup cfg s

/-- Low byte of a `data16_t` (`lsb`, `byte[0]`). -/
def data16_lsb (word : Nat) : Nat := word % 256

/-- High byte of a `data16_t` (`msb`, `byte[1]`). -/
def data16_msb (word : Nat) : Nat := word / 256 % 256

/-- The `word` of a `data16_t` whose bytes are `lsb` and `msb`. -/
def data16_word (lsb msb : Nat) : Nat := lsb % 256 + 256 * (msb % 256)

/-- The function `nrf_advertise`. -/
def nrf_advertise (s : State) : Except Fault State :=
  let timeout := 0
  let advival := 128
  let s := { s with tx := tx_zero }
  let s := { s with tx := { s.tx with length := 5 } }
  let s := { s with tx := { s.tx with command := NRF_CMD_CONNECT } }
  let s := { s with tx := { s.tx with data := s.tx.data.set 0 (data16_lsb timeout) } }
  let s := { s with tx := { s.tx with data := s.tx.data.set 1 (data16_msb timeout) } }
  let s := { s with tx := { s.tx with data := s.tx.data.set 2 (data16_lsb advival) } }
  let s := { s with tx := { s.tx with data := s.tx.data.set 3 (data16_msb advival) } }
  match nrf_send s.tx s.bus with
  | .error e => .error e
  | .ok b => .ok { s with bus := b }

/-- The element `service_pipe_map[i]`. -/
def service_pipe_map (cfg : Services) (i : Nat) : service_pipe_mapping :=
  cfg.SERVICES_PIPE_TYPE_MAPPING_CONTENT.getD i ⟨0, 0⟩

/-- The function `nrf_tx_map_pipes`; `1 << (i + 1)` is an `int`, converted to
`uint64_t` for the `|=`. The counter is 8 bits wide: this is the loop of the
source for `NUMBER_OF_PIPES ≤ 255`. -/
def nrf_tx_map_pipes (cfg : Services) (s : State) : State :=
  (List.range cfg.NUMBER_OF_PIPES).foldl
    (fun s i =>
      if (service_pipe_map cfg i).store = cfg.ACI_STORE_LOCAL ∧
          (service_pipe_map cfg i).type = cfg.ACI_TX then
        { s with nrf_tx_pipe_map := s.nrf_tx_pipe_map ||| to_u64 (int_shl 1 (i + 1)) }
      else s) s

/-- The function `nrf_close_tx_pipes`. -/
def nrf_close_tx_pipes (cfg : Services) (s : State) : State :=
  let s := { s with pipes_open := s.pipes_open &&& not_u64 s.nrf_tx_pipe_map }
  let s := { s with uart := uart_print_pgm "Open Pipes: " s.uart }
  let s := { s with uart := print_open_pipes cfg s.pipes_open s.uart }
  { s with uart := uart_newline s.uart }

/-- The function `nrf_parse`, on the frame behind `rx`. -/
def nrf_parse (cfg : Services) (rx : nrf_rx) (s : State) : State :=
  if rx.length = 0 then s
  else if rx.at 0 = NRF_EVT_CMD_RESPONSE then
    if rx.at 1 = NRF_CMD_CONNECT ∧ rx.at 2 = NRF_ERR_NO_ERROR then
      { s with uart := uart_print_pgm "Starting advertising\r\n" s.uart }
    else s
  else if rx.at 0 = NRF_EVT_CONNECTED then
    let s := { s with nrf_connect_state := NRF_STATE_CONNECTED }
    let s := led_connect_on s
    let s := { s with uart := uart_print_pgm "Connection from: " s.uart }
    let s := (List.range 5).foldl
      (fun s i => { s with uart := uart_putchar ':' (uart_puthex (rx.at (7 - i)) s.uart) }) s
    -- `rx->data[8 - i]` after the loop, where `i` is 5
    let s := { s with uart := uart_puthex (rx.at (8 - 5)) s.uart }
    { s with uart := uart_newline s.uart }
  else if rx.at 0 = NRF_EVT_DISCONNECTED then
    let s := led_connect_off s
    let s := nrf_close_tx_pipes cfg s
    { s with nrf_connect_state := NRF_STATE_DISCONNECT }
  else if rx.at 0 = NRF_EVT_PIPE_STATUS then
    let s := { s with pipes_open := 0 }
    let s := (List.range 8).foldl
      (fun s i =>
        { s with pipes_open := s.pipes_open ||| to_u64 (int_shl (rx.at (i + 1)) (8 * i)) }) s
    let s := { s with uart := uart_print_pgm "Open Pipes: " s.uart }
    let s := { s with uart := print_open_pipes cfg s.pipes_open s.uart }
    { s with uart := uart_newline s.uart }
  else if rx.at 0 = NRF_EVT_DATA_RECEIVED then
    if rx.at 1 = cfg.PIPE_EXAMPLE_SERVICE_PWM_DUTY_CYCLE_RX then
      if rx.at 2 > 0 then
        { s with OCR0A := rx.at 2, TCCR0A := 0x83, TCCR0B := 0x04 }
      else
        { s with TCCR0A := 0x00, TCCR0B := 0x00, PORTD := s.PORTD &&& 0xbf }
    else s
  else
    let s := { s with uart := uart_print_pgm "Received unhandled data: " s.uart }
    let s := (List.range rx.length).foldl
      (fun s i => { s with uart := uart_puthex (rx.at i) (uart_putchar ' ' s.uart) }) s
    { s with uart := uart_newline s.uart }

/-- The function `nrf_send_button_data`; `1 << PIPE_EXAMPLE_SERVICE_BUTTON_STATE_TX`
is an `int`, converted to `uint64_t` for the `&`. -/
def nrf_send_button_data (cfg : Services) (button : Nat) (s : State) :
    Except Fault (Int × State) :=
  if s.pipes_open &&& to_u64 (int_shl 1 cfg.PIPE_EXAMPLE_SERVICE_BUTTON_STATE_TX) = 0 then
    .ok (-1, { s with uart := uart_print_pgm "Pipe not open\r\n" s.uart })
  else
    let s := { s with tx := tx_zero }
    let s := { s with tx := { s.tx with length := 3 } }
    let s := { s with tx := { s.tx with command := NRF_CMD_SEND_DATA } }
    let s := { s with tx := { s.tx with
      data := s.tx.data.set 0 (cfg.PIPE_EXAMPLE_SERVICE_BUTTON_STATE_TX % 256) } }
    let s := { s with tx := { s.tx with data := s.tx.data.set 1 button } }
    match nrf_send s.tx s.bus with
    | .error e => .error e
    | .ok b => .ok (0, { s with bus := b })

/-- The function `nrf_print_temperature`; `nrf_txrx` is a send-only exchange
followed by a receive-only one. -/
def nrf_print_temperature (s : State) : Except Fault State :=
  let s := { s with tx := tx_zero }
  let s := { s with rx := rx_zero }
  let s := { s with tx := { s.tx with length := 0x01 } }
  let s := { s with tx := { s.tx with command := NRF_CMD_GET_TEMPERATURE } }
  match nrf_send s.tx s.bus with
  | .error e => .error e
  | .ok b =>
    let s := { s with bus := b }
    match nrf_receive s.rx s.bus with
    | .error e => .error e
    | .ok (r, b) =>
      let s := { s with rx := r, bus := b }
      let raw := data16_word (s.rx.at 3) (s.rx.at 4)
      let out := uart_print_pgm "Temperature: " s.uart
      let out := uart_putint (raw >>> 2) 1 out
      let out := uart_putchar '.' out
      let out :=
        if raw &&& 0x03 = 0 then uart_putchar '0' (uart_putchar '0' out)
        else if raw &&& 0x03 = 1 then uart_putchar '5' (uart_putchar '2' out)
        else if raw &&& 0x03 = 2 then uart_putchar '0' (uart_putchar '5' out)
        else if raw &&& 0x03 = 3 then uart_putchar '5' (uart_putchar '7' out)
        else out
      .ok { s with uart := uart_print_pgm " C\r\n" out }

/-! ## Peer scripts

What a peer shifts out during one exchange: the debug byte, the length byte,
and one payload byte for every further SPI cycle of the exchange. -/

structure Reply where
  debug : Nat
  length : Nat
  payload : List Nat
deriving DecidableEq, Repr

/-- The bytes of a reply in the order they are shifted out. -/
def Reply.bytes (r : Reply) : List Nat := r.debug :: r.length :: r.payload

/-- The script of a sequence of replies. -/
def script : List Reply → List Nat
  | [] => []
  | r :: rs => r.bytes ++ script rs

/-- A reply fits an exchange in which the host sends a frame with length byte
`txlen` (0 when it only receives): all its values are bytes, its length byte
is at most 30, and it has as many payload bytes as the exchange has cycles
after the two header cycles. -/
def Reply.fits (txlen : Nat) (r : Reply) : Prop :=
  r.debug < 256 ∧ r.length ≤ 30 ∧ (∀ x ∈ r.payload, x < 256) ∧
    r.payload.length = max (txlen - 1) r.length ∧ txlen ≤ 31

/-- Payload byte `i` of a reply, 0 past its end: what `rx.data[i]` holds after
an exchange into a zeroed frame. -/
def Reply.at (r : Reply) (i : Nat) : Nat := r.payload.getD i 0

/-- The frame a reply leaves in a zeroed `nrf_rx`. -/
def Reply.frame (r : Reply) : nrf_rx :=
  ⟨r.debug, r.length, r.payload ++ List.replicate (30 - r.payload.length) 0⟩

/-- The bus after the exchange of a call `nrf_transmit(tx, rx)` that the peer
answered with `r`. -/
def exchanged (tx : Option nrf_tx) (rx_null : Bool) (r : Reply) (rest : List Nat) (b : Bus) : Bus :=
  { PORTB := (b.PORTB &&& 0xfb) ||| 0x04,
    dummy_rx := if rx_null then r.frame else b.dummy_rx,
    miso := rest,
    mosi := b.mosi ++ [(tx.getD dummy_tx).length % 256, (tx.getD dummy_tx).command % 256] ++
      (List.range' 0 r.payload.length).map (fun j => (tx.getD dummy_tx).at j % 256),
    calls := b.calls ++ [⟨tx, rx_null⟩] }

/-- The globals and registers an exchange and the printing of a frame leave
alone. -/
def same_core (s t : State) : Prop :=
  t.nrf_connect_state = s.nrf_connect_state ∧ t.opmode = s.opmode ∧ t.pipes = s.pipes ∧
    t.pipes_open = s.pipes_open ∧ t.nrf_tx_pipe_map = s.nrf_tx_pipe_map ∧ t.PORTD = s.PORTD ∧
    t.OCR0A = s.OCR0A ∧ t.TCCR0A = s.TCCR0A ∧ t.TCCR0B = s.TCCR0B

/-- The reply reads as a CommandResponse event for the Setup command with the
given status: `data[0] = 0x84`, `data[1] = 0x06`, `data[2] = status`. -/
def Reply.is_response (r : Reply) (status : Nat) : Prop :=
  r.at 0 = NRF_EVT_CMD_RESPONSE ∧ r.at 1 = NRF_CMD_SETUP ∧ r.at 2 = status

/-- A reply to a setup message that `nrf_setup` lets pass: empty, or
CommandResponse / Setup / TransactionContinue. -/
def Reply.tolerated (cfg : Services) (r : Reply) : Prop :=
  r.length = 0 ∨ r.is_response cfg.ACI_STATUS_TRANSACTION_CONTINUE

instance (r : Reply) (status : Nat) : Decidable (r.is_response status) := by
  unfold Reply.is_response; exact inferInstance

instance (cfg : Services) (r : Reply) : Decidable (r.tolerated cfg) := by
  unfold Reply.tolerated; exact inferInstance

instance (txlen : Nat) (r : Reply) : Decidable (r.fits txlen) := by
  unfold Reply.fits; exact inferInstance

/-- The replies `rs` answer the setup messages `cnt`, `cnt + 1`, ... in turn:
each fits the exchange of its message and is tolerated. -/
def streamed (cfg : Services) : Nat → List Reply → Prop
  | _, [] => True
  | cnt, r :: rs =>
    r.fits (setup_tx (setup_data cfg cnt)).length ∧ r.tolerated cfg ∧ streamed cfg (cnt + 1) rs

/-- Every reply of the list fits a receive-only exchange and satisfies `P`. -/
def received (P : Reply → Prop) : List Reply → Prop
  | [] => True
  | r :: rs => r.fits 0 ∧ P r ∧ received P rs

/-- The calls of `nrf_transmit` that send the setup messages `cnt`, ...,
`cnt + k - 1`. -/
def setup_calls (cfg : Services) (cnt k : Nat) : List Xfer :=
  (List.range' cnt k).map (fun j => ⟨some (setup_tx (setup_data cfg j)), false⟩)

/-- The state after one round of the setup loop. -/
def after_setup_round (cfg : Services) (cnt : Nat) (r : Reply) (rest : List Nat) (s : State) :
    State :=
  { s with rx := r.frame, tx := setup_tx (setup_data cfg cnt),
           uart := nrf_print_rx r.frame s.uart,
           bus := exchanged (some (setup_tx (setup_data cfg cnt))) false r rest s.bus }

/-- The state after one receive-only exchange into the zeroed `rx`. -/
def after_receive (r : Reply) (rest : List Nat) (s : State) : State :=
  { s with rx := r.frame, bus := exchanged none false r rest s.bus }

/-- The first frame `nrf_setup` accepts: DeviceStarted, mode Setup, NoError. -/
def Reply.started_in_setup (r : Reply) : Prop :=
  r.at 0 = NRF_EVT_DEVICE_STARTED ∧ r.at 1 = NRF_OPMODE_SETUP ∧ r.at 2 = NRF_ERR_NO_ERROR

instance (r : Reply) : Decidable r.started_in_setup := by
  unfold Reply.started_in_setup; exact inferInstance

/-- The state in which `nrf_setup` enters its setup loop after the first
reply. -/
def after_first (first : Reply) (rest : List Nat) (s : State) : State :=
  { s with rx := first.frame, opmode := first.at 1, pipes := first.at 3,
           bus := exchanged none false first rest (ble_reset_high s.bus) }

/-- Decision procedure for `streamed`. -/
def streamed_dec (cfg : Services) : ∀ (cnt : Nat) (rs : List Reply), Decidable (streamed cfg cnt rs)
  | _, [] => isTrue trivial
  | cnt, r :: rs =>
    have := streamed_dec cfg (cnt + 1) rs
    show Decidable (r.fits (setup_tx (setup_data cfg cnt)).length ∧ r.tolerated cfg ∧
      streamed cfg (cnt + 1) rs) from inferInstance

instance (cfg : Services) (cnt : Nat) (rs : List Reply) : Decidable (streamed cfg cnt rs) :=
  streamed_dec cfg cnt rs

/-- Decision procedure for `received`. -/
def received_dec (P : Reply → Prop) [DecidablePred P] :
    ∀ (rs : List Reply), Decidable (received P rs)
  | [] => isTrue trivial
  | r :: rs =>
    have := received_dec P rs
    show Decidable (r.fits 0 ∧ P r ∧ received P rs) from inferInstance

instance (P : Reply → Prop) [DecidablePred P] (rs : List Reply) : Decidable (received P rs) :=
  received_dec P rs

/-- A configuration for examples: two setup messages (lengths 3 and 2), three
pipes of which pipe 1 is a local TX pipe, the button on pipe 1, the PWM duty
cycle on pipe 2, and the ACI status and pipe codes 1 and 2. -/
def services_example : Services :=
  { NB_SETUP_MESSAGES := 2
    SETUP_MESSAGES_CONTENT :=
      [⟨0, [3, 6, 0, 1] ++ List.replicate 28 0⟩, ⟨0, [2, 6, 16] ++ List.replicate 29 0⟩]
    NUMBER_OF_PIPES := 3
    SERVICES_PIPE_TYPE_MAPPING_CONTENT := [⟨1, 2⟩, ⟨1, 8⟩, ⟨2, 2⟩]
    PIPE_EXAMPLE_SERVICE_BUTTON_STATE_TX := 1
    PIPE_EXAMPLE_SERVICE_PWM_DUTY_CYCLE_RX := 2
    ACI_STATUS_TRANSACTION_CONTINUE := 1
    ACI_STATUS_TRANSACTION_COMPLETE := 2
    ACI_STORE_LOCAL := 1
    ACI_TX := 2 }

/-- The state after reset and port setup, facing a peer with the given
script. -/
def state_example (miso : List Nat) : State :=
  { nrf_connect_state := NRF_STATE_DISCONNECT, rx := rx_zero, opmode := 0, pipes := 0,
    pipes_open := 0, tx := tx_zero, nrf_tx_pipe_map := 0, PORTD := 0x2f, OCR0A := 0,
    TCCR0A := 0, TCCR0B := 0, uart := [],
    bus := { PORTB := 0xff, dummy_rx := rx_zero, miso := miso, mosi := [], calls := [] } }

/-- The state a run of `nrf_setup` leaves; the initial state when the run has
no result. -/
def nrf_setup_state (cfg : Services) (s : State) : State :=
  match nrf_setup cfg s with
  | .ok p => p.2
  | .error _ => s

/-- A script for `services_example`: DeviceStarted in Setup mode, an empty
reply and a TransactionContinue to the two setup messages, TransactionComplete,
DeviceStarted in Standby mode. -/
def script_example : List Nat :=
  [0, 4, 0x81, 2, 0, 3, 0, 0, 0, 0, 0, 3, 0x84, 6, 1, 0, 3, 0x84, 6, 2, 0, 4, 0x81, 3, 0, 3]

/-- The two characters after the decimal point for the quarter code
`raw & 3`. -/
def quarter (code : Nat) : List Char :=
  match code with
  | 0 => ['0', '0']
  | 1 => ['2', '5']
  | 2 => ['5', '0']
  | _ => ['7', '5']

/-- The value the specification gives `pipes_open` after a PipeStatus event:
the sum over `i = 0..7` of `data[i + 1] * 2 ^ (8 * i)`. -/
def pipe_status_sum (rx : nrf_rx) : Nat :=
  ((List.range 8).map (fun i => rx.at (i + 1) * 2 ^ (8 * i))).sum

/-- A PipeStatus frame with the given eight payload bytes. -/
def pipe_status_frame (payload : List Nat) : nrf_rx :=
  ⟨0, 9, ([NRF_EVT_PIPE_STATUS] ++ payload ++ List.replicate 30 0).take 30⟩

/-- The state of `state_example` with the given connection state, open pipes
and TX pipe mask. -/
def state_pipes (miso : List Nat) (connect pipes_open mask : Nat) : State :=
  let s := state_example miso
  { s with nrf_connect_state := connect, pipes_open := pipes_open, nrf_tx_pipe_map := mask }

/-- The frame `nrf_send_button_data` builds for pipe `P` and state `button`. -/
def button_frame (P button : Nat) : nrf_tx :=
  ⟨3, NRF_CMD_SEND_DATA, P :: button :: List.replicate 28 0⟩

/-- The state `s` with the UART output replaced. -/
def uart_only (s : State) (out : List Char) : State := { s with uart := out }

/-- A Connected frame (length 8) with address type `t` and the six identifier
bytes `id` in `data[2..7]`. -/
def connected_frame (t : Nat) (id : List Nat) : nrf_rx :=
  ⟨0, 8, ([NRF_EVT_CONNECTED, t] ++ id ++ List.replicate 30 0).take 30⟩

/-- A frame of the given length whose `data[0]` is `opcode`, the other data
bytes zero. -/
def event_frame (length opcode : Nat) : nrf_rx :=
  ⟨0, length, opcode :: List.replicate 29 0⟩

/-- The frame `nrf_advertise` builds: length 5, command Connect, timeout 0 and
interval 128 as two bytes each, low byte first. -/
def advertise_frame : nrf_tx :=
  ⟨5, NRF_CMD_CONNECT, [0x00, 0x00, 0x80, 0x00] ++ List.replicate 26 0⟩

/-- The state a run of `nrf_reset_module` leaves; the initial state when the
run has no result. -/
def nrf_reset_module_state (cfg : Services) (s : State) : State :=
  match nrf_reset_module cfg s with
  | .ok p => p.2
  | .error _ => s

/-- The fields of a `struct nrf_tx` are bytes. -/
def nrf_tx.bytes (t : nrf_tx) : Prop :=
  t.length < 256 ∧ t.command < 256 ∧ ∀ x ∈ t.data, x < 256

instance (t : nrf_tx) : Decidable t.bytes := by
  unfold nrf_tx.bytes; exact inferInstance

/-- The configuration `services_example` with another pipe table;
`NUMBER_OF_PIPES` is the number of its entries. -/
def services_pipes (table : List service_pipe_mapping) : Services :=
  let c := services_example
  { c with NUMBER_OF_PIPES := table.length, SERVICES_PIPE_TYPE_MAPPING_CONTENT := table }

/-- One step of the loop of `nrf_tx_map_pipes` on the mask alone. -/
def tx_map_step (cfg : Services) (m i : Nat) : Nat :=
  if (service_pipe_map cfg i).store = cfg.ACI_STORE_LOCAL ∧
      (service_pipe_map cfg i).type = cfg.ACI_TX then
    m ||| to_u64 (int_shl 1 (i + 1))
  else m

/-! ## Lemmas -/

theorem spi_transmit_cons (d x : Nat) (rest : List Nat) (b : Bus) (h : b.miso = x :: rest) :
    spi_transmit d b = .ok (x % 256, { b with miso := rest, mosi := b.mosi ++ [d % 256] }) := by
  simp [spi_transmit, h]

/-- The payload loop on a script that holds the bytes it needs. -/
theorem transmit_loop_script (tx : nrf_tx) (n : Nat) (hn : n ≤ 30) :
    ∀ (p : List Nat) (fuel i : Nat) (rx : nrf_rx) (b : Bus) (rest : List Nat),
      p.length + i = n → p.length < fuel →
      (tx.length - 1 ≤ n) → rx.length ≤ n → (n = tx.length - 1 ∨ n = rx.length) →
      (∀ x ∈ p, x < 256) → rx.data.length = 30 → b.miso = p ++ rest →
      transmit_loop tx fuel i rx b =
        .ok ({ rx with data := rx.data.take i ++ p ++ rx.data.drop n },
             { b with miso := rest,
                      mosi := b.mosi ++ (List.range' i p.length).map (fun j => tx.at j % 256) }) := by
  intro p
  induction p with
  | nil =>
    intro fuel i rx b rest hi hf h1 h2 h3 _ hd hm
    obtain ⟨f, rfl⟩ : ∃ f, fuel = f + 1 := ⟨fuel - 1, by simp at hf; omega⟩
    simp at hi
    subst hi
    have hc : ¬ ((i : Int) < (tx.length : Int) - 1 ∨ i < rx.length) := by omega
    simp only [transmit_loop, hc, if_false]
    simp at hm
    cases b; cases rx
    simp_all
  | cons x p ih =>
    intro fuel i rx b rest hi hf h1 h2 h3 hx hd hm
    obtain ⟨f, rfl⟩ : ∃ f, fuel = f + 1 := ⟨fuel - 1, by simp at hf; omega⟩
    simp at hi hf
    have hc : ((i : Int) < (tx.length : Int) - 1 ∨ i < rx.length) := by omega
    have h30 : ¬ 30 ≤ i := by omega
    have hx0 : x < 256 := hx x (by simp)
    simp only [transmit_loop, hc, if_true, h30, if_false]
    rw [spi_transmit_cons (tx.at i) x (p ++ rest) b (by simpa using hm)]
    simp only
    rw [Nat.mod_eq_of_lt hx0]
    have hrec := ih f (i + 1) { rx with data := rx.data.set i x }
      { b with miso := p ++ rest, mosi := b.mosi ++ [tx.at i % 256] } rest
      (by omega) (by omega) h1 h2 h3
      (fun y hy => hx y (by simp [hy])) (by simpa using hd) rfl
    rw [hrec]
    have hil : i < rx.data.length := by omega
    have hin : i < n := by omega
    simp [List.range'_succ, List.take_succ, List.getElem?_set, hil, List.set_take, List.drop_set, hin]
    exact List.set_eq_of_length_le (by simp)

theorem nrf_transmit_reply (tx : Option nrf_tx) (rx : Option nrf_rx) (r : Reply)
    (b : Bus) (rest : List Nat) (hfit : r.fits (tx.getD dummy_tx).length)
    (hrx : rx = none ∨ rx = some rx_zero) (hm : b.miso = r.bytes ++ rest) :
    nrf_transmit tx rx b =
      .ok (rx.map (fun _ => r.frame), exchanged tx rx.isNone r rest b) := by
  obtain ⟨hd, hl, hp, hlen, ht⟩ := hfit
  have hl256 : r.length < 256 := by omega
  have key : ∀ (t : nrf_tx) (d : Nat) (dd : List Nat) (pb : Nat) (drx : nrf_rx)
      (mo : List Nat) (ca : List Xfer), dd.length = 30 →
      r.payload.length = max (t.length - 1) r.length → t.length ≤ 31 →
      transmit_loop t 31 0 ⟨d, r.length, dd⟩ ⟨pb, drx, r.payload ++ rest, mo, ca⟩ =
        .ok (⟨d, r.length, r.payload ++ dd.drop r.payload.length⟩,
             ⟨pb, drx, rest, mo ++ (List.range' 0 r.payload.length).map (fun j => t.at j % 256),
               ca⟩) := by
    intro t d dd pb drx mo ca h0 h1 h2
    rw [transmit_loop_script t r.payload.length (by omega) r.payload 31 0 _ _ rest
      (by simp) (by omega) (by omega) (by simp; omega) (by simp; omega) hp (by simpa using h0) rfl]
    simp
  have hz : ∀ k, List.drop k rx_zero.data = List.replicate (30 - k) 0 := fun k => by
    show List.drop k (List.replicate 30 0) = _
    exact List.drop_replicate ..
  rcases hrx with h | h <;> subst h <;> cases tx <;>
    simp only [nrf_transmit, Option.getD, Option.isNone, Option.map] at hlen ht ⊢ <;>
    simp only [spi_transmit, reqn_set_low, hm, Reply.bytes, List.cons_append,
      Nat.mod_eq_of_lt hd, Nat.mod_eq_of_lt hl256] <;>
    rw [key _ _ _ _ _ _ _ (show rx_zero.data.length = 30 from rfl) hlen ht] <;>
    simp only [hz] <;>
    simp [exchanged, reqn_set_high, Reply.frame]

theorem nrf_receive_reply (r : Reply) (b : Bus) (rest : List Nat) (hfit : r.fits 0)
    (hm : b.miso = r.bytes ++ rest) :
    nrf_receive rx_zero b = .ok (r.frame, exchanged none false r rest b) := by
  unfold nrf_receive
  rw [nrf_transmit_reply none (some rx_zero) r b rest (by simpa [dummy_tx, tx_zero] using hfit)
    (Or.inr rfl) hm]
  rfl

theorem nrf_transmit_both_reply (t : nrf_tx) (r : Reply) (b : Bus) (rest : List Nat)
    (hfit : r.fits t.length) (hm : b.miso = r.bytes ++ rest) :
    nrf_transmit_both t rx_zero b = .ok (r.frame, exchanged (some t) false r rest b) := by
  unfold nrf_transmit_both
  rw [nrf_transmit_reply (some t) (some rx_zero) r b rest (by simpa using hfit) (Or.inr rfl) hm]
  rfl

theorem nrf_send_reply (t : nrf_tx) (r : Reply) (b : Bus) (rest : List Nat)
    (hfit : r.fits t.length) (hm : b.miso = r.bytes ++ rest) :
    nrf_send t b = .ok (exchanged (some t) true r rest b) := by
  unfold nrf_send
  rw [nrf_transmit_reply (some t) none r b rest (by simpa using hfit) (Or.inl rfl) hm]
  rfl

theorem Reply.frame_at (r : Reply) (i : Nat) : r.frame.at i = r.at i := by
  unfold Reply.frame nrf_rx.at Reply.at
  simp only [List.getD_eq_getElem?_getD, List.getElem?_append, List.getElem?_replicate]
  split
  · rfl
  · rename_i h
    rw [List.getElem?_eq_none (by omega)]
    split <;> rfl

theorem same_core_refl (s : State) : same_core s s := by simp [same_core]

theorem same_core_trans {s t u : State} (h1 : same_core s t) (h2 : same_core t u) :
    same_core s u := by
  simp only [same_core] at *
  omega

theorem setup_send_loop_core (cfg : Services) :
    ∀ (fuel cnt : Nat) (s t : State) (c : Bool),
      setup_send_loop cfg fuel cnt s = .ok (c, t) → same_core s t := by
  intro fuel
  induction fuel with
  | zero => intro cnt s t c h; simp [setup_send_loop] at h
  | succ f ih =>
    intro cnt s t c h
    rw [setup_send_loop] at h
    split at h
    · simp only at h
      split at h
      · simp at h
      · split at h
        · exact same_core_trans (by simp [same_core]) (ih _ _ _ _ h)
        · split at h
          · simp only [Except.ok.injEq, Prod.mk.injEq] at h
            rw [← h.2]
            simp [same_core]
          · exact same_core_trans (by simp [same_core]) (ih _ _ _ _ h)
    · simp only [Except.ok.injEq, Prod.mk.injEq] at h
      rw [← h.2]
      exact same_core_refl s

theorem recv_responses_loop_core (cfg : Services) :
    ∀ (fuel : Nat) (s t : State), recv_responses_loop cfg fuel s = .ok t → same_core s t := by
  intro fuel
  induction fuel with
  | zero => intro s t h; simp [recv_responses_loop] at h
  | succ f ih =>
    intro s t h
    rw [recv_responses_loop] at h
    simp only at h
    split at h
    · simp at h
    · split at h
      · exact same_core_trans (by simp [same_core]) (ih _ _ h)
      · simp only [Except.ok.injEq] at h
        rw [← h]
        simp [same_core]

theorem wait_started_loop_core :
    ∀ (fuel : Nat) (s t : State), wait_started_loop fuel s = .ok t → same_core s t := by
  intro fuel
  induction fuel with
  | zero => intro s t h; simp [wait_started_loop] at h
  | succ f ih =>
    intro s t h
    rw [wait_started_loop] at h
    simp only at h
    split at h
    · simp at h
    · split at h
      · exact same_core_trans (by simp [same_core]) (ih _ _ h)
      · simp only [Except.ok.injEq] at h
        rw [← h]
        simp [same_core]

theorem script_length (rs : List Reply) : 2 * rs.length ≤ (script rs).length := by
  induction rs with
  | nil => simp [script]
  | cons r rs ih => simp [script, Reply.bytes]; omega

theorem setup_send_loop_step (cfg : Services) (f cnt : Nat) (s : State) (r : Reply)
    (rest : List Nat) (hc : cnt < cfg.NB_SETUP_MESSAGES)
    (hfit : r.fits (setup_tx (setup_data cfg cnt)).length)
    (hm : s.bus.miso = r.bytes ++ rest) :
    setup_send_loop cfg (f + 1) cnt s =
      if r.tolerated cfg then
        setup_send_loop cfg f ((cnt + 1) % 256) (after_setup_round cfg cnt r rest s)
      else .ok (false, after_setup_round cfg cnt r rest s) := by
  rw [setup_send_loop]
  simp only [hc, if_true]
  rw [nrf_transmit_both_reply _ r s.bus rest hfit hm]
  simp only [Reply.frame_at, Reply.tolerated, Reply.is_response]
  have hl : r.frame.length = r.length := rfl
  rw [hl]
  by_cases h0 : r.length = 0
  · simp [h0, after_setup_round]
  · simp only [h0, if_false, false_or]
    by_cases h1 : r.at 0 = NRF_EVT_CMD_RESPONSE ∧ r.at 1 = NRF_CMD_SETUP ∧
        r.at 2 = cfg.ACI_STATUS_TRANSACTION_CONTINUE
    · have h1' : ¬ (r.at 0 ≠ NRF_EVT_CMD_RESPONSE ∨ r.at 1 ≠ NRF_CMD_SETUP ∨
          r.at 2 ≠ cfg.ACI_STATUS_TRANSACTION_CONTINUE) := by tauto
      simp only [h1', h1, if_false]
      simp [after_setup_round]
    · have h1' : (r.at 0 ≠ NRF_EVT_CMD_RESPONSE ∨ r.at 1 ≠ NRF_CMD_SETUP ∨
          r.at 2 ≠ cfg.ACI_STATUS_TRANSACTION_CONTINUE) := by tauto
      simp only [h1', h1, if_false]
      simp [after_setup_round]

theorem recv_responses_loop_step (cfg : Services) (f : Nat) (s : State) (r : Reply)
    (rest : List Nat) (hfit : r.fits 0) (hm : s.bus.miso = r.bytes ++ rest) :
    recv_responses_loop cfg (f + 1) s =
      if r.is_response cfg.ACI_STATUS_TRANSACTION_CONTINUE then
        recv_responses_loop cfg f
          { after_receive r rest s with uart := nrf_print_rx r.frame s.uart }
      else .ok { after_receive r rest s with uart := nrf_print_rx r.frame s.uart } := by
  rw [recv_responses_loop]
  simp only
  rw [nrf_receive_reply r s.bus rest hfit hm]
  simp only [Reply.frame_at, Reply.is_response, after_receive]

theorem wait_started_loop_step (f : Nat) (s : State) (r : Reply)
    (rest : List Nat) (hfit : r.fits 0) (hm : s.bus.miso = r.bytes ++ rest) :
    wait_started_loop (f + 1) s =
      if r.at 0 ≠ NRF_EVT_DEVICE_STARTED then wait_started_loop f (after_receive r rest s)
      else .ok (after_receive r rest s) := by
  rw [wait_started_loop]
  simp only
  rw [nrf_receive_reply r s.bus rest hfit hm]
  simp only [Reply.frame_at, after_receive]

theorem setup_calls_succ (cfg : Services) (cnt k : Nat) :
    setup_calls cfg cnt (k + 1) =
      ⟨some (setup_tx (setup_data cfg cnt)), false⟩ :: setup_calls cfg (cnt + 1) k := by
  simp [setup_calls, List.range'_succ]

theorem setup_send_loop_streamed (cfg : Services) (hNB : cfg.NB_SETUP_MESSAGES ≤ 255) :
    ∀ (rs : List Reply) (cnt fuel : Nat) (s : State) (rest : List Nat),
      cnt + rs.length = cfg.NB_SETUP_MESSAGES → rs.length < fuel → streamed cfg cnt rs →
      s.bus.miso = script rs ++ rest →
      ∃ t, setup_send_loop cfg fuel cnt s = .ok (true, t) ∧ t.bus.miso = rest ∧
        t.bus.calls = s.bus.calls ++ setup_calls cfg cnt rs.length := by
  intro rs
  induction rs with
  | nil =>
    intro cnt fuel s rest hc hf _ hm
    obtain ⟨f, rfl⟩ : ∃ f, fuel = f + 1 := ⟨fuel - 1, by simp at hf; omega⟩
    simp at hc
    refine ⟨s, ?_, by simpa [script] using hm, by simp [setup_calls]⟩
    rw [setup_send_loop]
    simp [hc]
  | cons r rs ih =>
    intro cnt fuel s rest hc hf hs hm
    obtain ⟨f, rfl⟩ : ∃ f, fuel = f + 1 := ⟨fuel - 1, by simp at hf; omega⟩
    simp at hc hf
    obtain ⟨hfit, htol, hs'⟩ := hs
    rw [setup_send_loop_step cfg f cnt s r (script rs ++ rest) (by omega) hfit
      (by simpa [script] using hm)]
    simp only [htol, if_true]
    rw [Nat.mod_eq_of_lt (by omega)]
    obtain ⟨t, ht, hmiso, hcalls⟩ := ih (cnt + 1) f (after_setup_round cfg cnt r (script rs ++ rest) s)
      rest (by omega) hf hs' rfl
    refine ⟨t, ht, hmiso, ?_⟩
    rw [hcalls, List.length_cons, setup_calls_succ]
    simp [after_setup_round, exchanged]

theorem setup_send_loop_rejected (cfg : Services) (hNB : cfg.NB_SETUP_MESSAGES ≤ 255) :
    ∀ (rs : List Reply) (cnt fuel : Nat) (s : State) (r : Reply) (rest : List Nat),
      cnt + rs.length < cfg.NB_SETUP_MESSAGES → rs.length < fuel → streamed cfg cnt rs →
      r.fits (setup_tx (setup_data cfg (cnt + rs.length))).length → ¬ r.tolerated cfg →
      s.bus.miso = script rs ++ (r.bytes ++ rest) →
      ∃ t, setup_send_loop cfg fuel cnt s = .ok (false, t) ∧ t.bus.miso = rest ∧
        t.bus.calls = s.bus.calls ++ setup_calls cfg cnt (rs.length + 1) ∧ t.rx = r.frame := by
  intro rs
  induction rs with
  | nil =>
    intro cnt fuel s r rest hc hf _ hfit htol hm
    obtain ⟨f, rfl⟩ : ∃ f, fuel = f + 1 := ⟨fuel - 1, by simp at hf; omega⟩
    simp at hc hfit
    rw [setup_send_loop_step cfg f cnt s r rest hc hfit (by simpa [script] using hm)]
    simp only [htol, if_false]
    exact ⟨_, rfl, by simp [after_setup_round, exchanged],
      by simp [after_setup_round, exchanged, setup_calls], by simp [after_setup_round]⟩
  | cons r0 rs ih =>
    intro cnt fuel s r rest hc hf hs hfit htol hm
    obtain ⟨f, rfl⟩ : ∃ f, fuel = f + 1 := ⟨fuel - 1, by simp at hf; omega⟩
    simp at hc hf
    obtain ⟨hfit0, htol0, hs'⟩ := hs
    rw [setup_send_loop_step cfg f cnt s r0 (script rs ++ (r.bytes ++ rest)) (by omega) hfit0
      (by simpa [script] using hm)]
    simp only [htol0, if_true]
    rw [Nat.mod_eq_of_lt (by omega)]
    obtain ⟨t, ht, hmiso, hcalls, hrx⟩ := ih (cnt + 1) f
      (after_setup_round cfg cnt r0 (script rs ++ (r.bytes ++ rest)) s) r rest (by omega) hf hs'
      (by rw [show cnt + 1 + rs.length = cnt + (r0 :: rs).length by simp; omega]; exact hfit)
      htol rfl
    refine ⟨t, ht, hmiso, ?_, hrx⟩
    rw [hcalls, List.length_cons, setup_calls_succ cfg cnt]
    simp [after_setup_round, exchanged]

theorem recv_responses_loop_script (cfg : Services) :
    ∀ (cs : List Reply) (fuel : Nat) (s : State) (f : Reply) (rest : List Nat),
      cs.length < fuel →
      received (fun r => r.is_response cfg.ACI_STATUS_TRANSACTION_CONTINUE) cs →
      f.fits 0 → ¬ f.is_response cfg.ACI_STATUS_TRANSACTION_CONTINUE →
      s.bus.miso = script cs ++ (f.bytes ++ rest) →
      ∃ t, recv_responses_loop cfg fuel s = .ok t ∧ t.rx = f.frame ∧ t.bus.miso = rest ∧
        t.bus.calls = s.bus.calls ++ List.replicate (cs.length + 1) ⟨none, false⟩ := by
  intro cs
  induction cs with
  | nil =>
    intro fuel s f rest hf _ hfit hnc hm
    obtain ⟨k, rfl⟩ : ∃ k, fuel = k + 1 := ⟨fuel - 1, by simp at hf; omega⟩
    rw [recv_responses_loop_step cfg k s f rest hfit (by simpa [script] using hm)]
    simp only [hnc, if_false]
    exact ⟨_, rfl, by simp [after_receive], by simp [after_receive, exchanged],
      by simp [after_receive, exchanged]⟩
  | cons c cs ih =>
    intro fuel s f rest hf hcs hfit hnc hm
    obtain ⟨k, rfl⟩ : ∃ k, fuel = k + 1 := ⟨fuel - 1, by simp at hf; omega⟩
    simp at hf
    obtain ⟨hfitc, hc, hcs'⟩ := hcs
    rw [recv_responses_loop_step cfg k s c (script cs ++ (f.bytes ++ rest)) hfitc
      (by simpa [script] using hm)]
    simp only [hc, if_true]
    obtain ⟨t, ht, hrx, hmiso, hcalls⟩ := ih k
      { after_receive c (script cs ++ (f.bytes ++ rest)) s with uart := nrf_print_rx c.frame s.uart }
      f rest hf hcs' hfit hnc rfl
    refine ⟨t, ht, hrx, hmiso, ?_⟩
    rw [hcalls]
    simp [after_receive, exchanged, List.replicate_succ]

theorem wait_started_loop_script :
    ∀ (os : List Reply) (fuel : Nat) (s : State) (l : Reply) (rest : List Nat),
      os.length < fuel →
      received (fun r => r.at 0 ≠ NRF_EVT_DEVICE_STARTED) os →
      l.fits 0 → l.at 0 = NRF_EVT_DEVICE_STARTED →
      s.bus.miso = script os ++ (l.bytes ++ rest) →
      ∃ t, wait_started_loop fuel s = .ok t ∧ t.rx = l.frame ∧ t.bus.miso = rest ∧
        t.bus.calls = s.bus.calls ++ List.replicate (os.length + 1) ⟨none, false⟩ ∧
        t.uart = s.uart := by
  intro os
  induction os with
  | nil =>
    intro fuel s l rest hf _ hfit hl hm
    obtain ⟨k, rfl⟩ : ∃ k, fuel = k + 1 := ⟨fuel - 1, by simp at hf; omega⟩
    rw [wait_started_loop_step k s l rest hfit (by simpa [script] using hm)]
    simp only [hl, ne_eq, not_true_eq_false, if_false]
    exact ⟨_, rfl, by simp [after_receive], by simp [after_receive, exchanged],
      by simp [after_receive, exchanged], by simp [after_receive]⟩
  | cons c os ih =>
    intro fuel s l rest hf hos hfit hl hm
    obtain ⟨k, rfl⟩ : ∃ k, fuel = k + 1 := ⟨fuel - 1, by simp at hf; omega⟩
    simp at hf
    obtain ⟨hfitc, hc, hos'⟩ := hos
    rw [wait_started_loop_step k s c (script os ++ (l.bytes ++ rest)) hfitc
      (by simpa [script] using hm)]
    rw [if_pos hc]
    obtain ⟨t, ht, hrx, hmiso, hcalls, hu⟩ := ih k
      (after_receive c (script os ++ (l.bytes ++ rest)) s) l rest hf hos' hfit hl rfl
    refine ⟨t, ht, hrx, hmiso, ?_, by rw [hu]; simp [after_receive]⟩
    rw [hcalls]
    simp [after_receive, exchanged, List.replicate_succ]

theorem script_append (xs ys : List Reply) : script (xs ++ ys) = script xs ++ script ys := by
  induction xs with
  | nil => simp [script]
  | cons x xs ih => simp [script, ih]

/-- What `nrf_setup` does once the first frame has been accepted. -/
theorem nrf_setup_accepted (cfg : Services) (s : State) (first : Reply) (rest : List Nat)
    (hfit : first.fits 0) (h1 : first.started_in_setup)
    (hm : s.bus.miso = first.bytes ++ rest) :
    nrf_setup cfg s =
      match setup_send_loop cfg (rest.length + 1) 0 (after_first first rest s) with
      | .error e => .error e
      | .ok (false, s) => .ok (-3, s)
      | .ok (true, s) =>
        match recv_responses_loop cfg (s.bus.miso.length + 1) s with
        | .error e => .error e
        | .ok s =>
          if s.rx.at 0 ≠ NRF_EVT_CMD_RESPONSE ∨ s.rx.at 1 ≠ NRF_CMD_SETUP ∨
              s.rx.at 2 ≠ cfg.ACI_STATUS_TRANSACTION_COMPLETE then
            .ok (-4, s)
          else
            match wait_started_loop (s.bus.miso.length + 1) s with
            | .error e => .error e
            | .ok s =>
              let s := { s with uart := nrf_print_rx s.rx s.uart }
              if s.rx.at 2 ≠ NRF_ERR_NO_ERROR then .ok (-5, s)
              else .ok (0, led_setup_on { s with opmode := s.rx.at 1, pipes := s.rx.at 3 }) := by
  obtain ⟨h0, h1, h2⟩ := h1
  unfold nrf_setup
  simp only
  rw [nrf_receive_reply first (ble_reset_high s.bus) rest hfit (by simpa [ble_reset_high] using hm)]
  simp only [Reply.frame_at, h0, h1, h2, ne_eq, not_true_eq_false, or_self, if_false,
    after_first]
  rfl

/-- C1: for a peer that answers a DeviceStarted / Setup / NoError frame, a
tolerated reply (empty or TransactionContinue) to each of the
NB_SETUP_MESSAGES setup messages, any number of TransactionContinue frames, one
TransactionComplete frame, any number of frames that are not DeviceStarted and
one DeviceStarted frame with NoError, `nrf_setup` returns 0, has recorded
`opmode` and `pipes` from `data[1]` and `data[3]` of the last frame, and has
set the setup LED bit of PORTD. -/
theorem nrf_setup_succeeds (cfg : Services) (s : State) (first complete last : Reply)
    (rs cs os : List Reply) (rest : List Nat)
    (hNB : cfg.NB_SETUP_MESSAGES ≤ 255)
    (hne : cfg.ACI_STATUS_TRANSACTION_CONTINUE ≠ cfg.ACI_STATUS_TRANSACTION_COMPLETE)
    (hfirst : first.fits 0 ∧ first.started_in_setup)
    (hrs : rs.length = cfg.NB_SETUP_MESSAGES ∧ streamed cfg 0 rs)
    (hcs : received (fun r => r.is_response cfg.ACI_STATUS_TRANSACTION_CONTINUE) cs)
    (hcomplete : complete.fits 0 ∧ complete.is_response cfg.ACI_STATUS_TRANSACTION_COMPLETE)
    (hos : received (fun r => r.at 0 ≠ NRF_EVT_DEVICE_STARTED) os)
    (hlast : last.fits 0 ∧ last.at 0 = NRF_EVT_DEVICE_STARTED ∧ last.at 2 = NRF_ERR_NO_ERROR)
    (hm : s.bus.miso = script ([first] ++ rs ++ cs ++ [complete] ++ os ++ [last]) ++ rest) :
    ∃ t, nrf_setup cfg s = .ok (0, t) ∧ t.opmode = last.at 1 ∧ t.pipes = last.at 3 ∧
      t.PORTD = s.PORTD ||| 0x80 ∧ t.bus.miso = rest := by
  have hm1 : s.bus.miso = first.bytes ++
      (script rs ++ (script cs ++ (complete.bytes ++ (script os ++ (last.bytes ++ rest))))) := by
    simpa [script_append, script] using hm
  rw [nrf_setup_accepted cfg s first _ hfirst.1 hfirst.2 hm1]
  obtain ⟨t1, e1, m1, _⟩ := setup_send_loop_streamed cfg hNB rs 0
    ((script rs ++ (script cs ++ (complete.bytes ++ (script os ++ (last.bytes ++ rest))))).length + 1)
    (after_first first _ s) _ (by simpa using hrs.1)
    (by have := script_length rs; simp only [List.length_append]; omega) hrs.2 rfl
  have c1 := setup_send_loop_core cfg _ _ _ _ _ e1
  rw [e1]
  simp only
  have hnc : ¬ complete.is_response cfg.ACI_STATUS_TRANSACTION_CONTINUE := by
    intro h; exact hne (h.2.2.symm.trans hcomplete.2.2.2)
  obtain ⟨t2, e2, r2, m2, _⟩ := recv_responses_loop_script cfg cs (t1.bus.miso.length + 1) t1
    complete _ (by have := script_length cs; rw [m1]; simp only [List.length_append]; omega)
    hcs hcomplete.1 hnc m1
  have c2 := recv_responses_loop_core cfg _ _ _ e2
  rw [e2]
  have hcomp : ¬ (t2.rx.at 0 ≠ NRF_EVT_CMD_RESPONSE ∨ t2.rx.at 1 ≠ NRF_CMD_SETUP ∨
      t2.rx.at 2 ≠ cfg.ACI_STATUS_TRANSACTION_COMPLETE) := by
    rw [r2]; simp only [Reply.frame_at]
    have := hcomplete.2
    simp only [Reply.is_response] at this
    tauto
  simp only [hcomp, if_false]
  obtain ⟨t3, e3, r3, m3, _, _⟩ := wait_started_loop_script os (t2.bus.miso.length + 1) t2
    last rest (by have := script_length os; rw [m2]; simp only [List.length_append]; omega)
    hos hlast.1 hlast.2.1 m2
  have c3 := wait_started_loop_core _ _ _ e3
  rw [e3]
  simp only [r3, Reply.frame_at, hlast.2.2, ne_eq, not_true_eq_false, if_false]
  refine ⟨_, rfl, rfl, rfl, ?_, m3⟩
  have h := (same_core_trans c1 (same_core_trans c2 c3)).2.2.2.2.2.1
  simp [led_setup_on, h, after_first]

/-- C2: when the first frame is DeviceStarted with NoError and an operating
mode other than Setup, `nrf_setup` returns -2 after one receive-only exchange:
the only call of `nrf_transmit` is that one, only the first reply has been
taken from the peer, and PORTD (the setup LED) is as before. -/
theorem nrf_setup_wrong_mode (cfg : Services) (s : State) (first : Reply) (rest : List Nat)
    (hfit : first.fits 0) (h0 : first.at 0 = NRF_EVT_DEVICE_STARTED)
    (h2 : first.at 2 = NRF_ERR_NO_ERROR) (h1 : first.at 1 ≠ NRF_OPMODE_SETUP)
    (hm : s.bus.miso = first.bytes ++ rest) :
    ∃ t, nrf_setup cfg s = .ok (-2, t) ∧ t.bus.calls = s.bus.calls ++ [⟨none, false⟩] ∧
      t.bus.miso = rest ∧ t.PORTD = s.PORTD := by
  unfold nrf_setup
  simp only
  rw [nrf_receive_reply first (ble_reset_high s.bus) rest hfit (by simpa [ble_reset_high] using hm)]
  simp only [Reply.frame_at, h0, h2, ne_eq, not_true_eq_false, or_self, if_false, h1,
    not_false_eq_true, if_true]
  exact ⟨_, rfl, by simp [exchanged, ble_reset_high], by simp [exchanged], rfl⟩

/-- C8: once the first frame has been accepted, the setup messages go out in
table order from index 0, one call of `nrf_transmit` each; replies that are
empty or TransactionContinue are passed over, and at the first message `k`
whose reply is neither, `nrf_setup` returns -3: the calls made are the first
receive and the messages 0..k, and nothing after the reply to message `k` has
been taken from the peer. -/
theorem nrf_setup_bad_continue (cfg : Services) (s : State) (first bad : Reply)
    (rs : List Reply) (rest : List Nat)
    (hNB : cfg.NB_SETUP_MESSAGES ≤ 255)
    (hfirst : first.fits 0 ∧ first.started_in_setup)
    (hk : rs.length < cfg.NB_SETUP_MESSAGES) (hrs : streamed cfg 0 rs)
    (hbad : bad.fits (setup_tx (setup_data cfg rs.length)).length ∧ ¬ bad.tolerated cfg)
    (hm : s.bus.miso = script ([first] ++ rs ++ [bad]) ++ rest) :
    ∃ t, nrf_setup cfg s = .ok (-3, t) ∧
      t.bus.calls = s.bus.calls ++ [⟨none, false⟩] ++ setup_calls cfg 0 (rs.length + 1) ∧
      t.bus.miso = rest := by
  have hm1 : s.bus.miso = first.bytes ++ (script rs ++ (bad.bytes ++ rest)) := by
    simpa [script_append, script] using hm
  rw [nrf_setup_accepted cfg s first _ hfirst.1 hfirst.2 hm1]
  obtain ⟨t1, e1, m1, k1, _⟩ := setup_send_loop_rejected cfg hNB rs 0
    ((script rs ++ (bad.bytes ++ rest)).length + 1)
    (after_first first _ s) bad rest (by simpa using hk)
    (by have := script_length rs; simp only [List.length_append]; omega) hrs
    (by simpa using hbad.1) hbad.2 rfl
  rw [e1]
  refine ⟨t1, rfl, ?_, m1⟩
  rw [k1]
  simp [after_first, exchanged, ble_reset_high]

theorem nrf_setup_succeeds_witness :
    ∃ t, nrf_setup services_example (state_example
        (script ([⟨0, 4, [0x81, 2, 0, 3]⟩] ++ [⟨0, 0, [0, 0]⟩, ⟨0, 3, [0x84, 6, 1]⟩] ++
          [⟨0, 3, [0x84, 6, 1]⟩] ++ [⟨0, 3, [0x84, 6, 2]⟩] ++ [⟨0, 0, []⟩] ++
          [⟨0, 4, [0x81, 3, 0, 5]⟩]) ++ [])) = .ok (0, t) ∧
      t.opmode = Reply.at ⟨0, 4, [0x81, 3, 0, 5]⟩ 1 ∧ t.pipes = Reply.at ⟨0, 4, [0x81, 3, 0, 5]⟩ 3 ∧
      t.PORTD = (state_example []).PORTD ||| 0x80 ∧ t.bus.miso = [] :=
  nrf_setup_succeeds services_example _ ⟨0, 4, [0x81, 2, 0, 3]⟩ ⟨0, 3, [0x84, 6, 2]⟩
    ⟨0, 4, [0x81, 3, 0, 5]⟩ [⟨0, 0, [0, 0]⟩, ⟨0, 3, [0x84, 6, 1]⟩] [⟨0, 3, [0x84, 6, 1]⟩]
    [⟨0, 0, []⟩] [] (by decide) (by decide) (by decide) (by decide) (by decide) (by decide)
    (by decide) (by decide) rfl

theorem nrf_setup_wrong_mode_witness :
    ∃ t, nrf_setup services_example (state_example [0, 4, 0x81, 3, 0, 3]) = .ok (-2, t) ∧
      t.bus.calls = [] ++ [⟨none, false⟩] ∧ t.bus.miso = [] ∧ t.PORTD = 0x2f :=
  nrf_setup_wrong_mode services_example (state_example [0, 4, 0x81, 3, 0, 3])
    ⟨0, 4, [0x81, 3, 0, 3]⟩ [] (by decide) (by decide) (by decide) (by decide) rfl

theorem nrf_setup_bad_continue_witness :
    ∃ t, nrf_setup services_example (state_example
        (script ([⟨0, 4, [0x81, 2, 0, 3]⟩] ++ [⟨0, 0, [0, 0]⟩] ++ [⟨0, 3, [0x84, 6, 3]⟩]) ++
          [7, 7])) = .ok (-3, t) ∧
      t.bus.calls = [] ++ [⟨none, false⟩] ++ setup_calls services_example 0 (1 + 1) ∧
      t.bus.miso = [7, 7] :=
  nrf_setup_bad_continue services_example _ ⟨0, 4, [0x81, 2, 0, 3]⟩ ⟨0, 3, [0x84, 6, 3]⟩
    [⟨0, 0, [0, 0]⟩] [7, 7] (by decide) (by decide) (by decide) (by decide) (by decide) rfl

/-- The last phase of `nrf_setup` never ends in -4. -/
theorem wait_phase_not_minus_four (u : State) (t : State) :
    (match wait_started_loop (u.bus.miso.length + 1) u with
      | .error e => (.error e : Except Fault (Int × State))
      | .ok s =>
        let s := { s with uart := nrf_print_rx s.rx s.uart }
        if s.rx.at 2 ≠ NRF_ERR_NO_ERROR then .ok (-5, s)
        else .ok (0, led_setup_on { s with opmode := s.rx.at 1, pipes := s.rx.at 3 })) ≠
      .ok (-4, t) := by
  split
  · simp
  · simp only
    split <;> simp

/-- C9: after the setup messages have been streamed with tolerated replies,
let the peer send `k` TransactionContinue frames and then a frame `f` that is
not one. The receive loop of this phase then makes exactly `k + 1`
receive-only exchanges and ends with `f` in `rx`; `nrf_setup` returns -4 if and
only if `f` is not CommandResponse / Setup / TransactionComplete, and when it
does, the calls made are the first receive, the setup messages and these
`k + 1` receives. -/
theorem nrf_setup_incomplete (cfg : Services) (s : State) (first f : Reply)
    (rs cs : List Reply) (rest : List Nat)
    (hNB : cfg.NB_SETUP_MESSAGES ≤ 255)
    (hfirst : first.fits 0 ∧ first.started_in_setup)
    (hrs : rs.length = cfg.NB_SETUP_MESSAGES ∧ streamed cfg 0 rs)
    (hcs : received (fun r => r.is_response cfg.ACI_STATUS_TRANSACTION_CONTINUE) cs)
    (hf : f.fits 0 ∧ ¬ f.is_response cfg.ACI_STATUS_TRANSACTION_CONTINUE)
    (hm : s.bus.miso = script ([first] ++ rs ++ cs ++ [f]) ++ rest) :
    (∃ u, setup_send_loop cfg (s.bus.miso.length - first.bytes.length + 1) 0
          (after_first first (s.bus.miso.drop first.bytes.length) s) = .ok (true, u) ∧
        ∃ t, recv_responses_loop cfg (u.bus.miso.length + 1) u = .ok t ∧ t.rx = f.frame ∧
          t.bus.calls = u.bus.calls ++ List.replicate (cs.length + 1) ⟨none, false⟩ ∧
          t.bus.miso = rest) ∧
      ((∃ t, nrf_setup cfg s = .ok (-4, t)) ↔
        ¬ f.is_response cfg.ACI_STATUS_TRANSACTION_COMPLETE) ∧
      (¬ f.is_response cfg.ACI_STATUS_TRANSACTION_COMPLETE →
        ∃ t, nrf_setup cfg s = .ok (-4, t) ∧
          t.bus.calls = s.bus.calls ++ [⟨none, false⟩] ++
            setup_calls cfg 0 cfg.NB_SETUP_MESSAGES ++
            List.replicate (cs.length + 1) ⟨none, false⟩ ∧
          t.bus.miso = rest) := by
  have hm1 : s.bus.miso = first.bytes ++ (script rs ++ (script cs ++ (f.bytes ++ rest))) := by
    simpa [script_append, script] using hm
  have hdrop : s.bus.miso.drop first.bytes.length =
      script rs ++ (script cs ++ (f.bytes ++ rest)) := by
    rw [hm1]; simp
  have hlen : s.bus.miso.length - first.bytes.length + 1 =
      (script rs ++ (script cs ++ (f.bytes ++ rest))).length + 1 := by
    rw [hm1]; simp
  obtain ⟨t1, e1, m1, k1⟩ := setup_send_loop_streamed cfg hNB rs 0
    ((script rs ++ (script cs ++ (f.bytes ++ rest))).length + 1)
    (after_first first _ s) _ (by simpa using hrs.1)
    (by have := script_length rs; simp only [List.length_append]; omega) hrs.2 rfl
  obtain ⟨t2, e2, r2, m2, k2⟩ := recv_responses_loop_script cfg cs (t1.bus.miso.length + 1) t1
    f _ (by have := script_length cs; rw [m1]; simp only [List.length_append]; omega)
    hcs hf.1 hf.2 m1
  have hrun : nrf_setup cfg s =
      if t2.rx.at 0 ≠ NRF_EVT_CMD_RESPONSE ∨ t2.rx.at 1 ≠ NRF_CMD_SETUP ∨
          t2.rx.at 2 ≠ cfg.ACI_STATUS_TRANSACTION_COMPLETE then
        .ok (-4, t2)
      else
        match wait_started_loop (t2.bus.miso.length + 1) t2 with
        | .error e => .error e
        | .ok s =>
          let s := { s with uart := nrf_print_rx s.rx s.uart }
          if s.rx.at 2 ≠ NRF_ERR_NO_ERROR then .ok (-5, s)
          else .ok (0, led_setup_on { s with opmode := s.rx.at 1, pipes := s.rx.at 3 }) := by
    rw [nrf_setup_accepted cfg s first _ hfirst.1 hfirst.2 hm1, e1]
    simp only
    rw [e2]
    try rfl
  have hcond : (t2.rx.at 0 ≠ NRF_EVT_CMD_RESPONSE ∨ t2.rx.at 1 ≠ NRF_CMD_SETUP ∨
      t2.rx.at 2 ≠ cfg.ACI_STATUS_TRANSACTION_COMPLETE) ↔
      ¬ f.is_response cfg.ACI_STATUS_TRANSACTION_COMPLETE := by
    rw [r2]; simp only [Reply.frame_at, Reply.is_response]; tauto
  have hcalls : t2.bus.calls = s.bus.calls ++ [⟨none, false⟩] ++
      setup_calls cfg 0 cfg.NB_SETUP_MESSAGES ++ List.replicate (cs.length + 1) ⟨none, false⟩ := by
    rw [k2, k1, hrs.1]
    simp [after_first, exchanged, ble_reset_high]
  refine ⟨⟨t1, by rw [hlen, hdrop]; exact e1, t2, e2, r2, k2, m2⟩, ⟨?_, ?_⟩, ?_⟩
  · rintro ⟨t, ht⟩
    intro hc
    rw [hrun, if_neg (by rw [hcond]; exact not_not.mpr hc)] at ht
    exact wait_phase_not_minus_four t2 t ht
  · intro hnc
    exact ⟨t2, by rw [hrun, if_pos (hcond.mpr hnc)]⟩
  · intro hnc
    exact ⟨t2, by rw [hrun, if_pos (hcond.mpr hnc)], hcalls, m2⟩

theorem nrf_setup_incomplete_witness :
    (∃ u, setup_send_loop services_example
          ((state_example (script ([⟨0, 4, [0x81, 2, 0, 3]⟩] ++
            [⟨0, 0, [0, 0]⟩, ⟨0, 3, [0x84, 6, 1]⟩] ++ [⟨0, 3, [0x84, 6, 1]⟩] ++ [⟨0, 0, []⟩]) ++
            [9])).bus.miso.length - (Reply.bytes ⟨0, 4, [0x81, 2, 0, 3]⟩).length + 1) 0
          (after_first ⟨0, 4, [0x81, 2, 0, 3]⟩
            ((state_example (script ([⟨0, 4, [0x81, 2, 0, 3]⟩] ++
              [⟨0, 0, [0, 0]⟩, ⟨0, 3, [0x84, 6, 1]⟩] ++ [⟨0, 3, [0x84, 6, 1]⟩] ++ [⟨0, 0, []⟩]) ++
              [9])).bus.miso.drop (Reply.bytes ⟨0, 4, [0x81, 2, 0, 3]⟩).length)
            (state_example (script ([⟨0, 4, [0x81, 2, 0, 3]⟩] ++
              [⟨0, 0, [0, 0]⟩, ⟨0, 3, [0x84, 6, 1]⟩] ++ [⟨0, 3, [0x84, 6, 1]⟩] ++ [⟨0, 0, []⟩]) ++
              [9]))) = .ok (true, u) ∧
        ∃ t, recv_responses_loop services_example (u.bus.miso.length + 1) u = .ok t ∧
          t.rx = Reply.frame ⟨0, 0, []⟩ ∧
          t.bus.calls = u.bus.calls ++ List.replicate (1 + 1) ⟨none, false⟩ ∧
          t.bus.miso = [9]) ∧
      ((∃ t, nrf_setup services_example (state_example (script ([⟨0, 4, [0x81, 2, 0, 3]⟩] ++
            [⟨0, 0, [0, 0]⟩, ⟨0, 3, [0x84, 6, 1]⟩] ++ [⟨0, 3, [0x84, 6, 1]⟩] ++ [⟨0, 0, []⟩]) ++
            [9])) = .ok (-4, t)) ↔
        ¬ Reply.is_response ⟨0, 0, []⟩ services_example.ACI_STATUS_TRANSACTION_COMPLETE) ∧
      (¬ Reply.is_response ⟨0, 0, []⟩ services_example.ACI_STATUS_TRANSACTION_COMPLETE →
        ∃ t, nrf_setup services_example (state_example (script ([⟨0, 4, [0x81, 2, 0, 3]⟩] ++
            [⟨0, 0, [0, 0]⟩, ⟨0, 3, [0x84, 6, 1]⟩] ++ [⟨0, 3, [0x84, 6, 1]⟩] ++ [⟨0, 0, []⟩]) ++
            [9])) = .ok (-4, t) ∧
          t.bus.calls = [] ++ [⟨none, false⟩] ++
            setup_calls services_example 0 services_example.NB_SETUP_MESSAGES ++
            List.replicate (1 + 1) ⟨none, false⟩ ∧
          t.bus.miso = [9]) :=
  nrf_setup_incomplete services_example _ ⟨0, 4, [0x81, 2, 0, 3]⟩ ⟨0, 0, []⟩
    [⟨0, 0, [0, 0]⟩, ⟨0, 3, [0x84, 6, 1]⟩] [⟨0, 3, [0x84, 6, 1]⟩] [9]
    (by decide) (by decide) (by decide) (by decide) (by decide) rfl

theorem spi_transmit_calls (d : Nat) (b b' : Bus) (x : Nat)
    (h : spi_transmit d b = .ok (x, b')) : b'.calls = b.calls ∧ b'.PORTB = b.PORTB := by
  unfold spi_transmit at h
  split at h
  · simp at h
  · simp only [Except.ok.injEq, Prod.mk.injEq] at h
    rw [← h.2]
    simp

theorem transmit_loop_calls (tx : nrf_tx) :
    ∀ (fuel i : Nat) (rx r : nrf_rx) (b b' : Bus),
      transmit_loop tx fuel i rx b = .ok (r, b') → b'.calls = b.calls := by
  intro fuel
  induction fuel with
  | zero => intro i rx r b b' h; simp [transmit_loop] at h
  | succ f ih =>
    intro i rx r b b' h
    rw [transmit_loop] at h
    split at h
    · split at h
      · simp at h
      · split at h
        · simp at h
        · rename_i x b1 hx
          rw [ih _ _ _ _ _ h, (spi_transmit_calls _ _ _ _ hx).1]
    · simp only [Except.ok.injEq, Prod.mk.injEq] at h
      rw [← h.2]

theorem nrf_transmit_calls (tx : Option nrf_tx) (rx r : Option nrf_rx) (b b' : Bus)
    (h : nrf_transmit tx rx b = .ok (r, b')) : b'.calls = b.calls ++ [⟨tx, rx.isNone⟩] := by
  unfold nrf_transmit at h
  simp only at h
  split at h
  · simp at h
  · rename_i x b1 h1
    split at h
    · simp at h
    · rename_i y b2 h2
      split at h
      · simp at h
      · rename_i r3 b3 h3
        have e3 := transmit_loop_calls _ _ _ _ _ _ _ h3
        have e2 := (spi_transmit_calls _ _ _ _ h2).1
        have e1 := (spi_transmit_calls _ _ _ _ h1).1
        cases rx <;> simp only [Except.ok.injEq, Prod.mk.injEq] at h <;> rw [← h.2] <;>
          simp [reqn_set_high, e3, e2, e1, reqn_set_low]

theorem nrf_receive_calls (rx r : nrf_rx) (b b' : Bus) (h : nrf_receive rx b = .ok (r, b')) :
    b'.calls = b.calls ++ [⟨none, false⟩] := by
  unfold nrf_receive at h
  split at h
  · simp at h
  · rename_i r1 b1 h1
    simp only [Except.ok.injEq, Prod.mk.injEq] at h
    rw [← h.2]
    simpa using nrf_transmit_calls _ _ _ _ _ h1

theorem nrf_transmit_both_calls (tx : nrf_tx) (rx r : nrf_rx) (b b' : Bus)
    (h : nrf_transmit_both tx rx b = .ok (r, b')) : b'.calls = b.calls ++ [⟨some tx, false⟩] := by
  unfold nrf_transmit_both at h
  split at h
  · simp at h
  · rename_i r1 b1 h1
    simp only [Except.ok.injEq, Prod.mk.injEq] at h
    rw [← h.2]
    simpa using nrf_transmit_calls _ _ _ _ _ h1

theorem nrf_send_calls (tx : nrf_tx) (b b' : Bus) (h : nrf_send tx b = .ok b') :
    b'.calls = b.calls ++ [⟨some tx, true⟩] := by
  unfold nrf_send at h
  split at h
  · simp at h
  · rename_i r1 b1 h1
    simp only [Except.ok.injEq] at h
    rw [← h]
    simpa using nrf_transmit_calls _ _ _ _ _ h1

theorem wait_started_loop_started :
    ∀ (fuel : Nat) (s t : State), wait_started_loop fuel s = .ok t →
      t.rx.at 0 = NRF_EVT_DEVICE_STARTED := by
  intro fuel
  induction fuel with
  | zero => intro s t h; simp [wait_started_loop] at h
  | succ f ih =>
    intro s t h
    rw [wait_started_loop] at h
    simp only at h
    split at h
    · simp at h
    · split at h
      · exact ih _ _ h
      · rename_i hc
        simp only [Except.ok.injEq] at h
        rw [← h]
        simpa using hc

/-- C10, counterexample: a peer whose last DeviceStarted frame still reports
mode Setup (`data[1] = 0x02`) makes `nrf_setup` return 0 with `opmode` equal to
Setup. -/
theorem nrf_setup_zero_in_setup_mode :
    (nrf_setup services_example (state_example
      [0, 4, 0x81, 2, 0, 3, 0, 0, 0, 0, 0, 3, 0x84, 6, 1, 0, 3, 0x84, 6, 2,
        0, 4, 0x81, 2, 0, 3])).toOption.map (fun p => (p.1, p.2.opmode)) =
      some (0, NRF_OPMODE_SETUP) := by
  decide

/-- C10, amended: when `nrf_setup` returns 0, the frame left in `rx` is a
DeviceStarted frame with NoError and `opmode` and `pipes` are its `data[1]`
and `data[3]`, whatever mode that is; and whatever `nrf_setup` returns, either
the frame of its first exchange was DeviceStarted / Setup / NoError, or that
receive-only exchange is the only call of `nrf_transmit` it has made. -/
theorem nrf_setup_mode_recorded (cfg : Services) (s t : State) (r : Int)
    (h : nrf_setup cfg s = .ok (r, t)) :
    (r = 0 → t.rx.at 0 = NRF_EVT_DEVICE_STARTED ∧ t.rx.at 2 = NRF_ERR_NO_ERROR ∧
        t.opmode = t.rx.at 1 ∧ t.pipes = t.rx.at 3) ∧
      ∃ f b, nrf_receive rx_zero (ble_reset_high s.bus) = .ok (f, b) ∧
        ((f.at 0 = NRF_EVT_DEVICE_STARTED ∧ f.at 1 = NRF_OPMODE_SETUP ∧
            f.at 2 = NRF_ERR_NO_ERROR) ∨
          t.bus.calls = s.bus.calls ++ [⟨none, false⟩]) := by
  unfold nrf_setup at h
  simp only at h
  split at h
  · simp at h
  · rename_i f b hf
    have hcalls := nrf_receive_calls _ _ _ _ hf
    split at h
    · simp only [Except.ok.injEq, Prod.mk.injEq] at h
      refine ⟨fun h0 => by omega, f, b, hf, Or.inr ?_⟩
      rw [← h.2]
      simpa [ble_reset_high] using hcalls
    · rename_i hacc
      split at h
      · simp only [Except.ok.injEq, Prod.mk.injEq] at h
        refine ⟨fun h0 => by omega, f, b, hf, Or.inr ?_⟩
        rw [← h.2]
        simpa [ble_reset_high] using hcalls
      · rename_i hmode
        refine ⟨?_, f, b, hf, Or.inl ?_⟩
        · intro h0
          subst h0
          split at h
          · simp at h
          · simp at h
          · split at h
            · simp at h
            · split at h
              · simp at h
              · split at h
                · simp at h
                · rename_i s3 hw
                  have hst := wait_started_loop_started _ _ _ hw
                  split at h
                  · simp at h
                  · rename_i herr
                    simp only [Except.ok.injEq, Prod.mk.injEq, true_and] at h
                    rw [← h]
                    simp only [ne_eq, not_not] at herr
                    simp [led_setup_on, hst, herr]
        · simp only [ne_eq, not_or, not_not] at hacc hmode
          exact ⟨hacc.1, hmode, hacc.2⟩

theorem nrf_setup_mode_recorded_witness :
    ((0 : Int) = 0 →
        (nrf_setup_state services_example (state_example script_example)).rx.at 0 =
          NRF_EVT_DEVICE_STARTED ∧
        (nrf_setup_state services_example (state_example script_example)).rx.at 2 =
          NRF_ERR_NO_ERROR ∧
        (nrf_setup_state services_example (state_example script_example)).opmode =
          (nrf_setup_state services_example (state_example script_example)).rx.at 1 ∧
        (nrf_setup_state services_example (state_example script_example)).pipes =
          (nrf_setup_state services_example (state_example script_example)).rx.at 3) ∧
      ∃ f b, nrf_receive rx_zero (ble_reset_high (state_example script_example).bus) =
          .ok (f, b) ∧
        ((f.at 0 = NRF_EVT_DEVICE_STARTED ∧ f.at 1 = NRF_OPMODE_SETUP ∧
            f.at 2 = NRF_ERR_NO_ERROR) ∨
          (nrf_setup_state services_example (state_example script_example)).bus.calls =
            (state_example script_example).bus.calls ++ [⟨none, false⟩]) :=
  nrf_setup_mode_recorded services_example (state_example script_example)
    (nrf_setup_state services_example (state_example script_example)) 0 (by rfl)

theorem digitChar_eq (d : Nat) (h : d < 10) : Char.ofNat (d + 48) = Nat.digitChar d := by
  interval_cases d <;> rfl

theorem toDigitsCore_digits :
    ∀ (fuel n : Nat) (ds : List Char), n < fuel → 0 < n →
      Nat.toDigitsCore 10 fuel n ds = ((Nat.digits 10 n).map Nat.digitChar).reverse ++ ds := by
  intro fuel
  induction fuel with
  | zero => intro n ds h; omega
  | succ f ih =>
    intro n ds hf hn
    rw [Nat.toDigitsCore, Nat.digits_def' (by norm_num) hn]
    by_cases h0 : n / 10 = 0
    · simp [h0]
    · simp only [h0, if_false]
      rw [ih (n / 10) _ (by omega) (by omega)]
      simp

/-- The decimal digits of `n`, most significant first, as `Nat.repr` gives
them. -/
theorem repr_digits (n : Nat) :
    (Nat.repr n).toList =
      if n = 0 then ['0'] else ((Nat.digits 10 n).map Nat.digitChar).reverse := by
  by_cases h : n = 0
  · subst h; rfl
  · simp only [h, if_false]
    show Nat.toDigits 10 n = _
    rw [Nat.toDigits, toDigitsCore_digits (n + 1) n [] (by omega) (by omega)]
    simp

theorem tobuf_loop_digits :
    ∀ (fuel n i : Nat) (buf : List Char),
      (Nat.digits 10 n).length + i ≤ 10 → (Nat.digits 10 n).length < fuel → buf.length = 10 →
      tobuf_loop fuel (i : Int) (n : Int) buf =
        (((i + (Nat.digits 10 n).length : Nat) : Int),
          buf.take i ++ (Nat.digits 10 n).map Nat.digitChar ++
            buf.drop (i + (Nat.digits 10 n).length)) := by
  intro fuel
  induction fuel with
  | zero => intro n i buf _ h; omega
  | succ f ih =>
    intro n i buf hi hf hb
    rw [tobuf_loop]
    by_cases hn : n = 0
    · subst hn
      simp
    · have hpos : 0 < n := by omega
      rw [Nat.digits_def' (by norm_num) hpos] at hi hf ⊢
      simp only [List.length_cons] at hi hf
      have hc : ((i : Int) < 10 ∧ (n : Int) ≠ 0) := by constructor <;> omega
      rw [if_pos hc]
      have hd : Int.tdiv (n : Int) 10 = ((n / 10 : Nat) : Int) := rfl
      have hmod : n % 10 < 10 := Nat.mod_lt _ (by norm_num)
      have hch : Char.ofNat ((int8 (int8 ((n : Int) - ((n / 10 : Nat) : Int) * 10) + 48) % 256).toNat) =
          Nat.digitChar (n % 10) := by
        rw [← digitChar_eq _ hmod]
        congr 1
        simp only [int8]
        omega
      have hi1 : int8 ((i : Int) + 1) = ((i + 1 : Nat) : Int) := by
        simp only [int8]; omega
      simp only
      rw [hd, hch, hi1, Int.toNat_ofNat]
      rw [ih (n / 10) (i + 1) _ (by omega) (by omega) (by simpa using hb)]
      have hil : i < buf.length := by omega
      have e1 : (List.take i buf).set i (n % 10).digitChar = List.take i buf :=
        List.set_eq_of_length_le (by simp)
      have e2 : i + 1 + (Nat.digits 10 (n / 10)).length =
          i + ((Nat.digits 10 (n / 10)).length + 1) := by omega
      rw [e2]
      simp [List.take_succ, List.getElem?_set, hil, List.set_take, List.drop_set, e1,
        show i < i + ((Nat.digits 10 (n / 10)).length + 1) by omega]

theorem putint_digits_take :
    ∀ (fuel k : Nat) (buf out : List Char), k < fuel → k < buf.length → k < 127 →
      putint_digits fuel (k : Int) buf out = out ++ (buf.take (k + 1)).reverse := by
  intro fuel
  induction fuel with
  | zero => intro k buf out h; omega
  | succ f ih =>
    intro k buf out hf hb hk
    rw [putint_digits]
    simp only [Int.natCast_nonneg, if_true, Int.toNat_ofNat]
    cases k with
    | zero =>
      have h1 : int8 (((0 : Nat) : Int) - 1) = -1 := by decide
      rw [h1]
      have hput : ∀ b o, putint_digits f (-1) b o = o := by
        intro b o; cases f <;> simp [putint_digits]
      rw [hput]
      simp [uart_putchar, List.take_succ, List.getD_eq_getElem?_getD, List.getElem?_eq_getElem hb]
    | succ j =>
      have h1 : int8 (((j + 1 : Nat) : Int) - 1) = (j : Int) := by
        simp only [int8]; omega
      rw [h1, ih j buf _ (by omega) (by omega) (by omega)]
      have e : List.take (j + 1 + 1) buf = List.take (j + 1) buf ++ [buf[j + 1]] := by
        rw [List.take_succ]; simp [List.getElem?_eq_getElem hb]
      rw [e, List.reverse_append]
      simp [uart_putchar, List.getD_eq_getElem?_getD, List.getElem?_eq_getElem hb]

/-- What `uart_putint(number, 1)` writes for a number from 0 to 9999999999. -/
theorem uart_putint_one (n : Nat) (hn : n < 10 ^ 10) (out : List Char) :
    uart_putint (n : Int) 1 out = out ++ (Nat.repr n).toList := by
  have hlen : (Nat.digits 10 n).length ≤ 10 := by
    by_cases h0 : n = 0
    · subst h0; simp
    · have h1 := Nat.base_pow_length_digits_le 10 n (by norm_num) h0
      have h2 : 10 ^ (Nat.digits 10 n).length < 10 ^ 11 := by omega
      have h3 := (Nat.pow_lt_pow_iff_right (by norm_num : 1 < 10)).mp h2
      omega
  rw [repr_digits]
  unfold uart_putint tobuf
  have hneg : ¬ ((n : Int) < 0) := by omega
  simp only [hneg, if_false]
  have hl := tobuf_loop_digits 11 n 0 (List.replicate 10 ' ') (by simpa using hlen) (by omega)
    (by simp)
  simp only [Nat.cast_zero, List.take_zero, List.nil_append, Nat.zero_add] at hl
  rw [hl]
  simp only
  by_cases h0 : n = 0
  · subst h0
    simp only [if_true, Nat.digits_zero, List.length_nil, List.map_nil, List.nil_append]
    rfl
  · simp only [h0, if_false]
    have hpos : 0 < (Nat.digits 10 n).length := by
      rw [List.length_pos]
      exact Nat.digits_ne_nil_iff_ne_zero.mpr h0
    obtain ⟨k, hk⟩ : ∃ k, (Nat.digits 10 n).length = k + 1 := ⟨_, (Nat.succ_pred_eq_of_pos hpos).symm⟩
    have hi : int8 (((int8 ((((Nat.digits 10 n).length : Nat) : Int) - 1) % 256).toNat : Nat) : Int) =
        (k : Int) := by
      rw [hk]; simp only [int8]; omega
    rw [hi]
    have hpad : putint_pad 257 (k : Int) 1 out = out := by
      rw [putint_pad]
      have : ¬ ((k : Int) < int8 (1 - 1)) := by
        have : int8 (1 - 1) = 0 := by decide
        rw [this]; omega
      simp only [this, if_false]
    rw [hpad, putint_digits_take 129 k _ out (by omega) (by simp; omega) (by omega)]
    rw [← hk, List.take_append_of_le_length (by simp)]
    simp

theorem uart_print_pgm_append (data : String) (out : List Char) :
    uart_print_pgm data out = out ++ data.toList := by
  unfold uart_print_pgm
  generalize data.toList = l
  induction l generalizing out with
  | nil => simp
  | cons c l ih => rw [List.foldl_cons, ih]; simp [uart_putchar]

theorem Reply.at_lt (r : Reply) (txlen : Nat) (h : r.fits txlen) (i : Nat) : r.at i < 256 := by
  unfold Reply.at
  rw [List.getD_eq_getElem?_getD]
  by_cases hi : i < r.payload.length
  · rw [List.getElem?_eq_getElem hi]
    exact h.2.2.1 _ (List.getElem_mem _)
  · rw [List.getElem?_eq_none (by omega)]
    decide

/-- C6: when the peer answers both exchanges, `nrf_print_temperature` writes
"Temperature: ", the decimal digits of `raw >> 2`, a '.', the two characters
for `raw & 3`, and " C\r\n", where `raw` has `data[3]` of the received frame as
low byte and `data[4]` as high byte. -/
theorem nrf_print_temperature_output (s : State) (r1 r2 : Reply) (rest : List Nat)
    (h1 : r1.fits 1) (h2 : r2.fits 0) (hm : s.bus.miso = r1.bytes ++ (r2.bytes ++ rest)) :
    ∃ t, nrf_print_temperature s = .ok t ∧
      t.uart = s.uart ++ "Temperature: ".toList ++
        (Nat.repr ((r2.at 3 + 256 * r2.at 4) >>> 2)).toList ++ ['.'] ++
        quarter ((r2.at 3 + 256 * r2.at 4) &&& 3) ++ " C\r\n".toList := by
  have h3 := r2.at_lt 0 h2 3
  have h4 := r2.at_lt 0 h2 4
  unfold nrf_print_temperature
  simp only
  rw [nrf_send_reply _ r1 s.bus (r2.bytes ++ rest) h1 hm]
  simp only
  rw [nrf_receive_reply r2 _ rest h2 rfl]
  simp only [Reply.frame_at, data16_word, Nat.mod_eq_of_lt h3, Nat.mod_eq_of_lt h4]
  refine ⟨_, rfl, ?_⟩
  simp only
  generalize hraw : r2.at 3 + 256 * r2.at 4 = raw
  have hr : raw < 65536 := by omega
  have hsh : raw >>> 2 < 10 ^ 10 := by
    rw [Nat.shiftRight_eq_div_pow]
    have : raw / 2 ^ 2 ≤ raw := Nat.div_le_self _ _
    norm_num at this ⊢
    omega
  have hq : raw &&& 3 = raw % 4 := Nat.and_pow_two_sub_one_eq_mod raw 2
  have hlt : raw % 4 < 4 := Nat.mod_lt _ (by norm_num)
  rw [hq]
  have hput := uart_putint_one (raw >>> 2) hsh
  simp only [Nat.cast_ofNat] at hput
  rw [uart_print_pgm_append, uart_print_pgm_append]
  rw [hput]
  generalize raw % 4 = q at hlt
  interval_cases q <;> simp [quarter, uart_putchar]

theorem nrf_print_temperature_output_witness :
    (∃ t, nrf_print_temperature (state_example [0, 0, 0, 5, 0x84, 0x0c, 0, 0x41, 0]) = .ok t ∧
      t.uart = (state_example []).uart ++ "Temperature: ".toList ++
        (Nat.repr ((Reply.at ⟨0, 5, [0x84, 0x0c, 0, 0x41, 0]⟩ 3 +
          256 * Reply.at ⟨0, 5, [0x84, 0x0c, 0, 0x41, 0]⟩ 4) >>> 2)).toList ++ ['.'] ++
        quarter ((Reply.at ⟨0, 5, [0x84, 0x0c, 0, 0x41, 0]⟩ 3 +
          256 * Reply.at ⟨0, 5, [0x84, 0x0c, 0, 0x41, 0]⟩ 4) &&& 3) ++ " C\r\n".toList) ∧
      (Reply.at ⟨0, 5, [0x84, 0x0c, 0, 0x41, 0]⟩ 3 +
          256 * Reply.at ⟨0, 5, [0x84, 0x0c, 0, 0x41, 0]⟩ 4 = 0x0041) ∧
      (state_example []).uart ++ "Temperature: ".toList ++ (Nat.repr (0x0041 >>> 2)).toList ++
        ['.'] ++ quarter (0x0041 &&& 3) ++ " C\r\n".toList = "Temperature: 16.25 C\r\n".toList :=
  ⟨nrf_print_temperature_output (state_example [0, 0, 0, 5, 0x84, 0x0c, 0, 0x41, 0])
      ⟨0, 0, []⟩ ⟨0, 5, [0x84, 0x0c, 0, 0x41, 0]⟩ [] (by decide) (by decide) rfl,
    by decide, by decide⟩

/-- C3, at failing inputs: with payload bytes [0,0,0,0,1,0,0,0] the sum of the
claim is 2^32 (pipe 32 open) but `nrf_parse` leaves `pipes_open` = 0; with
payload bytes [0,0x80,0,0,0,0,0,0] the sum is 2^15 but `nrf_parse` leaves
0xFFFFFFFFFFFF8000. The example of the claim, payload [2,0,0,0,0,0,0,0], does
give 2 (pipe 1 only). -/
theorem nrf_parse_pipe_status_16bit :
    (nrf_parse services_example (pipe_status_frame [0, 0, 0, 0, 1, 0, 0, 0])
        (state_example [])).pipes_open = 0 ∧
      pipe_status_sum (pipe_status_frame [0, 0, 0, 0, 1, 0, 0, 0]) = 2 ^ 32 ∧
      (nrf_parse services_example (pipe_status_frame [0, 0x80, 0, 0, 0, 0, 0, 0])
        (state_example [])).pipes_open = 0xFFFFFFFFFFFF8000 ∧
      pipe_status_sum (pipe_status_frame [0, 0x80, 0, 0, 0, 0, 0, 0]) = 2 ^ 15 ∧
      (nrf_parse services_example (pipe_status_frame [2, 0, 0, 0, 0, 0, 0, 0])
        (state_example [])).pipes_open = 2 := by
  decide

theorem foldl_uart (f : List Char → Nat → List Char) (l : List Nat) (s : State) :
    l.foldl (fun s i => { s with uart := f s.uart i }) s =
      { s with uart := l.foldl f s.uart } := by
  induction l generalizing s with
  | nil => rfl
  | cons x l ih => rw [List.foldl_cons, ih]; rfl

theorem foldl_pipes_open (f : Nat → Nat → Nat) (l : List Nat) (s : State) :
    l.foldl (fun s i => { s with pipes_open := f s.pipes_open i }) s =
      { s with pipes_open := l.foldl f s.pipes_open } := by
  induction l generalizing s with
  | nil => rfl
  | cons x l ih => rw [List.foldl_cons, ih]; rfl

/-- What `nrf_parse` leaves in `nrf_connect_state` and `pipes_open`. -/
theorem nrf_parse_state (cfg : Services) (rx : nrf_rx) (s : State) :
    (nrf_parse cfg rx s).nrf_connect_state =
        (if rx.length = 0 then s.nrf_connect_state
         else if rx.at 0 = NRF_EVT_CONNECTED then NRF_STATE_CONNECTED
         else if rx.at 0 = NRF_EVT_DISCONNECTED then NRF_STATE_DISCONNECT
         else s.nrf_connect_state) ∧
      (nrf_parse cfg rx s).pipes_open =
        (if rx.length = 0 then s.pipes_open
         else if rx.at 0 = NRF_EVT_DISCONNECTED then
           s.pipes_open &&& not_u64 s.nrf_tx_pipe_map
         else if rx.at 0 = NRF_EVT_PIPE_STATUS then
           (List.range 8).foldl
             (fun p i => p ||| to_u64 (int_shl (rx.at (i + 1)) (8 * i))) 0
         else s.pipes_open) := by
  unfold nrf_parse
  by_cases h0 : rx.length = 0
  · simp [h0]
  · simp only [h0, if_false]
    by_cases h1 : rx.at 0 = NRF_EVT_CMD_RESPONSE
    · rw [if_pos h1]
      have e1 : rx.at 0 ≠ NRF_EVT_CONNECTED := by rw [h1]; decide
      have e2 : rx.at 0 ≠ NRF_EVT_DISCONNECTED := by rw [h1]; decide
      have e3 : rx.at 0 ≠ NRF_EVT_PIPE_STATUS := by rw [h1]; decide
      simp only [e1, e2, e3, if_false]
      split <;> simp
    · rw [if_neg h1]
      by_cases h2 : rx.at 0 = NRF_EVT_CONNECTED
      · rw [if_pos h2]
        have e2 : rx.at 0 ≠ NRF_EVT_DISCONNECTED := by rw [h2]; decide
        have e3 : rx.at 0 ≠ NRF_EVT_PIPE_STATUS := by rw [h2]; decide
        simp only [h2, e2, e3, if_false, if_true]
        rw [foldl_uart (fun u i => uart_putchar ':' (uart_puthex (rx.at (7 - i)) u))]
        simp [led_connect_on, NRF_EVT_CONNECTED, NRF_EVT_DISCONNECTED, NRF_EVT_PIPE_STATUS]
      · rw [if_neg h2]
        by_cases h3 : rx.at 0 = NRF_EVT_DISCONNECTED
        · rw [if_pos h3]
          simp [h3, nrf_close_tx_pipes, led_connect_off, NRF_EVT_CONNECTED, NRF_EVT_DISCONNECTED]
        · rw [if_neg h3]
          by_cases h4 : rx.at 0 = NRF_EVT_PIPE_STATUS
          · rw [if_pos h4]
            simp only [h2, h3, h4, if_false, if_true]
            rw [foldl_pipes_open (fun p i => p ||| to_u64 (int_shl (rx.at (i + 1)) (8 * i)))]
            simp [NRF_EVT_CONNECTED, NRF_EVT_DISCONNECTED, NRF_EVT_PIPE_STATUS]
          · rw [if_neg h4]
            simp only [h2, h3, h4, if_false]
            by_cases h5 : rx.at 0 = NRF_EVT_DATA_RECEIVED
            · rw [if_pos h5]
              split
              · split <;> simp
              · simp
            · rw [if_neg h5]
              rw [foldl_uart (fun u i => uart_puthex (rx.at i) (uart_putchar ' ' u))]
              simp

theorem not_u64_testBit (m : Nat) (hm : m < 2 ^ 64) (k : Nat) :
    (not_u64 m).testBit k = (decide (k < 64) && !m.testBit k) := by
  have e : not_u64 m = 2 ^ 64 - (m + 1) := by
    unfold not_u64
    rw [Nat.mod_eq_of_lt (by simpa using hm)]
    norm_num
    omega
  rw [e, Nat.testBit_two_pow_sub_succ hm]

/-- C4: a non-empty Disconnected frame leaves `pipes_open` = `p AND NOT m`
(bit `k` is set afterwards exactly when it was set in `p` and is not set in
the mask `m = nrf_tx_pipe_map`) and sets `nrf_connect_state` to Disconnected,
from every connection state. `NUMBER_OF_PIPES ≤ 254` is the range in which
the 8 bit loop that lists the open pipes comes to an end. -/
theorem nrf_parse_disconnected (cfg : Services) (rx : nrf_rx) (s : State)
    (_hN : cfg.NUMBER_OF_PIPES ≤ 254) (hlen : rx.length ≠ 0)
    (hev : rx.at 0 = NRF_EVT_DISCONNECTED)
    (hp : s.pipes_open < 2 ^ 64) (hm : s.nrf_tx_pipe_map < 2 ^ 64) :
    (nrf_parse cfg rx s).nrf_connect_state = NRF_STATE_DISCONNECT ∧
      (nrf_parse cfg rx s).pipes_open = s.pipes_open &&& not_u64 s.nrf_tx_pipe_map ∧
      ∀ k, (nrf_parse cfg rx s).pipes_open.testBit k =
        (s.pipes_open.testBit k && !s.nrf_tx_pipe_map.testBit k) := by
  obtain ⟨h1, h2⟩ := nrf_parse_state cfg rx s
  have e1 : rx.at 0 ≠ NRF_EVT_CONNECTED := by rw [hev]; decide
  rw [if_neg hlen, if_neg e1, if_pos hev] at h1
  rw [if_neg hlen, if_pos hev] at h2
  refine ⟨h1, h2, fun k => ?_⟩
  rw [h2, Nat.testBit_and, not_u64_testBit _ hm]
  by_cases hk : k < 64
  · simp [hk]
  · have : s.pipes_open.testBit k = false :=
      Nat.testBit_eq_false_of_lt (lt_of_lt_of_le hp (Nat.pow_le_pow_right (by norm_num) (by omega)))
    simp [this]

theorem nrf_parse_disconnected_witness :
    ((nrf_parse services_example ⟨0, 3, [0x86, 0, 0x13] ++ List.replicate 27 0⟩
        (state_pipes [] NRF_STATE_CONNECTED 14 4)).nrf_connect_state = NRF_STATE_DISCONNECT ∧
      (nrf_parse services_example ⟨0, 3, [0x86, 0, 0x13] ++ List.replicate 27 0⟩
        (state_pipes [] NRF_STATE_CONNECTED 14 4)).pipes_open = 14 &&& not_u64 4 ∧
      ∀ k, (nrf_parse services_example ⟨0, 3, [0x86, 0, 0x13] ++ List.replicate 27 0⟩
        (state_pipes [] NRF_STATE_CONNECTED 14 4)).pipes_open.testBit k =
        (Nat.testBit 14 k && !Nat.testBit 4 k)) ∧
      14 &&& not_u64 4 = 10 :=
  ⟨nrf_parse_disconnected services_example ⟨0, 3, [0x86, 0, 0x13] ++ List.replicate 27 0⟩
      (state_pipes [] NRF_STATE_CONNECTED 14 4)
      (by decide) (by decide) (by decide) (by decide) (by decide),
    by decide⟩

/-- C7: from a connection state other than Connected, `nrf_parse` leaves
Connected exactly when the frame is non-empty and its `data[0]` is the
Connected opcode; a non-empty Connected frame leaves Connected from any state
and does not change `pipes_open`. `NUMBER_OF_PIPES ≤ 254` is the range in
which the 8 bit loop that lists the open pipes (Disconnected and PipeStatus
frames) comes to an end. -/
theorem nrf_parse_connected (cfg : Services) (rx : nrf_rx) (s : State)
    (_hN : cfg.NUMBER_OF_PIPES ≤ 254) :
    (s.nrf_connect_state ≠ NRF_STATE_CONNECTED →
        ((nrf_parse cfg rx s).nrf_connect_state = NRF_STATE_CONNECTED ↔
          rx.length ≠ 0 ∧ rx.at 0 = NRF_EVT_CONNECTED)) ∧
      (rx.length ≠ 0 → rx.at 0 = NRF_EVT_CONNECTED →
        (nrf_parse cfg rx s).nrf_connect_state = NRF_STATE_CONNECTED ∧
          (nrf_parse cfg rx s).pipes_open = s.pipes_open) := by
  obtain ⟨h1, h2⟩ := nrf_parse_state cfg rx s
  constructor
  · intro hs
    rw [h1]
    by_cases h0 : rx.length = 0
    · simp [h0, hs]
    · by_cases hc : rx.at 0 = NRF_EVT_CONNECTED
      · simp [h0, hc]
      · by_cases hd : rx.at 0 = NRF_EVT_DISCONNECTED
        · simp [h0, hc, hd, NRF_STATE_DISCONNECT, NRF_STATE_CONNECTED]
        · simp [h0, hc, hd, hs]
  · intro h0 hc
    have e2 : rx.at 0 ≠ NRF_EVT_DISCONNECTED := by rw [hc]; decide
    have e3 : rx.at 0 ≠ NRF_EVT_PIPE_STATUS := by rw [hc]; decide
    rw [h1, h2, if_neg h0, if_pos hc, if_neg h0, if_neg e2, if_neg e3]
    exact ⟨rfl, rfl⟩

theorem nrf_parse_connected_witness :
    ((state_example []).nrf_connect_state ≠ NRF_STATE_CONNECTED →
        ((nrf_parse services_example ⟨0, 8, [0x85, 0, 1, 2, 3, 4, 5, 6] ++ List.replicate 22 0⟩
            (state_example [])).nrf_connect_state = NRF_STATE_CONNECTED ↔
          (8 : Nat) ≠ 0 ∧
            nrf_rx.at ⟨0, 8, [0x85, 0, 1, 2, 3, 4, 5, 6] ++ List.replicate 22 0⟩ 0 =
              NRF_EVT_CONNECTED)) ∧
      ((8 : Nat) ≠ 0 →
        nrf_rx.at ⟨0, 8, [0x85, 0, 1, 2, 3, 4, 5, 6] ++ List.replicate 22 0⟩ 0 =
          NRF_EVT_CONNECTED →
        (nrf_parse services_example ⟨0, 8, [0x85, 0, 1, 2, 3, 4, 5, 6] ++ List.replicate 22 0⟩
            (state_example [])).nrf_connect_state = NRF_STATE_CONNECTED ∧
          (nrf_parse services_example ⟨0, 8, [0x85, 0, 1, 2, 3, 4, 5, 6] ++ List.replicate 22 0⟩
            (state_example [])).pipes_open = (state_example []).pipes_open) :=
  nrf_parse_connected services_example ⟨0, 8, [0x85, 0, 1, 2, 3, 4, 5, 6] ++ List.replicate 22 0⟩
    (state_example []) (by decide)

theorem button_bit (p P : Nat) (hP : P ≤ 14) :
    p &&& to_u64 (int_shl 1 P) = 0 ↔ p.testBit P = false := by
  have e : to_u64 (int_shl 1 P) = 2 ^ P := by
    interval_cases P <;> rfl
  rw [e, Nat.and_comm, Nat.two_pow_and]
  cases p.testBit P <;> simp

/-- C5: with `P` the button pipe of the configuration (`P ≤ 14`):
when bit `P` of `pipes_open` is clear, `nrf_send_button_data` returns -1 and
only the UART output differs afterwards (no call of `nrf_transmit`, `tx`
untouched); when it is set and the peer answers the exchange, it returns 0
after exactly one send-only call of `nrf_transmit` with the frame of length 3,
command SendData, `data[0] = P`, `data[1] = button`, the rest zero; and it
returns -1 only when the bit is clear. -/
theorem nrf_send_button_data_gate (cfg : Services) (button : Nat) (s : State)
    (hP : cfg.PIPE_EXAMPLE_SERVICE_BUTTON_STATE_TX ≤ 14) :
    (s.pipes_open.testBit cfg.PIPE_EXAMPLE_SERVICE_BUTTON_STATE_TX = false →
        nrf_send_button_data cfg button s =
          .ok (-1, { s with uart := s.uart ++ "Pipe not open\r\n".toList })) ∧
      (s.pipes_open.testBit cfg.PIPE_EXAMPLE_SERVICE_BUTTON_STATE_TX = true →
        ∀ (r : Reply) (rest : List Nat), r.fits 3 → s.bus.miso = r.bytes ++ rest →
          ∃ t, nrf_send_button_data cfg button s = .ok (0, t) ∧
            t.tx = button_frame cfg.PIPE_EXAMPLE_SERVICE_BUTTON_STATE_TX button ∧
            t.bus.calls = s.bus.calls ++
              [⟨some (button_frame cfg.PIPE_EXAMPLE_SERVICE_BUTTON_STATE_TX button), true⟩] ∧
            t.bus.miso = rest) ∧
      ((∃ t, nrf_send_button_data cfg button s = .ok (-1, t)) ↔
        s.pipes_open.testBit cfg.PIPE_EXAMPLE_SERVICE_BUTTON_STATE_TX = false) := by
  have hb := button_bit s.pipes_open _ hP
  refine ⟨?_, ?_, ?_⟩
  · intro hclear
    unfold nrf_send_button_data
    rw [if_pos (hb.mpr hclear), uart_print_pgm_append]
  · intro hset r rest hfit hm
    have hne : ¬ (s.pipes_open &&& to_u64 (int_shl 1 cfg.PIPE_EXAMPLE_SERVICE_BUTTON_STATE_TX) = 0) := by
      rw [hb, hset]; simp
    unfold nrf_send_button_data
    rw [if_neg hne]
    simp only
    rw [nrf_send_reply _ r s.bus rest hfit hm]
    have hmod : cfg.PIPE_EXAMPLE_SERVICE_BUTTON_STATE_TX % 256 =
        cfg.PIPE_EXAMPLE_SERVICE_BUTTON_STATE_TX := Nat.mod_eq_of_lt (by omega)
    refine ⟨_, rfl, ?_, ?_, ?_⟩
    · simp only [hmod]; rfl
    · simp only [exchanged, hmod]; rfl
    · simp [exchanged]
  · constructor
    · rintro ⟨t, ht⟩
      by_contra hset
      have hne : ¬ (s.pipes_open &&& to_u64 (int_shl 1 cfg.PIPE_EXAMPLE_SERVICE_BUTTON_STATE_TX) = 0) := by
        rw [hb]; exact hset
      unfold nrf_send_button_data at ht
      rw [if_neg hne] at ht
      simp only at ht
      split at ht <;> simp at ht
    · intro hclear
      unfold nrf_send_button_data
      rw [if_pos (hb.mpr hclear)]
      exact ⟨_, rfl⟩

theorem nrf_send_button_data_gate_witness :
    (Nat.testBit 2 services_example.PIPE_EXAMPLE_SERVICE_BUTTON_STATE_TX = false →
        nrf_send_button_data services_example 1 (state_pipes [0, 0, 0, 0] 0 2 0) =
          .ok (-1, uart_only (state_pipes [0, 0, 0, 0] 0 2 0)
            ([] ++ "Pipe not open\r\n".toList))) ∧
      (Nat.testBit 2 services_example.PIPE_EXAMPLE_SERVICE_BUTTON_STATE_TX = true →
        ∀ (r : Reply) (rest : List Nat), r.fits 3 → [0, 0, 0, 0] = r.bytes ++ rest →
          ∃ t, nrf_send_button_data services_example 1
              (state_pipes [0, 0, 0, 0] 0 2 0) = .ok (0, t) ∧
            t.tx = button_frame services_example.PIPE_EXAMPLE_SERVICE_BUTTON_STATE_TX 1 ∧
            t.bus.calls = [] ++
              [⟨some (button_frame services_example.PIPE_EXAMPLE_SERVICE_BUTTON_STATE_TX 1), true⟩] ∧
            t.bus.miso = rest) ∧
      ((∃ t, nrf_send_button_data services_example 1
          (state_pipes [0, 0, 0, 0] 0 2 0) = .ok (-1, t)) ↔
        Nat.testBit 2 services_example.PIPE_EXAMPLE_SERVICE_BUTTON_STATE_TX = false) :=
  nrf_send_button_data_gate services_example 1 (state_pipes [0, 0, 0, 0] 0 2 0)
    (by decide)

theorem spi_transmit_miso (d : Nat) (b b' : Bus) (x : Nat)
    (h : spi_transmit d b = .ok (x, b')) : b'.miso.length + 1 = b.miso.length := by
  unfold spi_transmit at h
  split at h
  · simp at h
  · rename_i y rest hy
    simp only [Except.ok.injEq, Prod.mk.injEq] at h
    rw [← h.2, hy]
    simp

theorem transmit_loop_miso (tx : nrf_tx) :
    ∀ (fuel i : Nat) (rx r : nrf_rx) (b b' : Bus),
      transmit_loop tx fuel i rx b = .ok (r, b') → b'.miso.length ≤ b.miso.length := by
  intro fuel
  induction fuel with
  | zero => intro i rx r b b' h; simp [transmit_loop] at h
  | succ f ih =>
    intro i rx r b b' h
    rw [transmit_loop] at h
    split at h
    · split at h
      · simp at h
      · split at h
        · simp at h
        · rename_i x b1 hx
          have h1 := ih _ _ _ _ _ h
          have h2 := spi_transmit_miso _ _ _ _ hx
          omega
    · simp only [Except.ok.injEq, Prod.mk.injEq] at h
      rw [← h.2]

/-- Every exchange takes at least two bytes of the script. -/
theorem nrf_transmit_miso (tx : Option nrf_tx) (rx r : Option nrf_rx) (b b' : Bus)
    (h : nrf_transmit tx rx b = .ok (r, b')) : b'.miso.length + 2 ≤ b.miso.length := by
  unfold nrf_transmit at h
  simp only at h
  split at h
  · simp at h
  · rename_i x b1 h1
    split at h
    · simp at h
    · rename_i y b2 h2
      split at h
      · simp at h
      · rename_i r3 b3 h3
        have e3 := transmit_loop_miso _ _ _ _ _ _ _ h3
        have e2 := spi_transmit_miso _ _ _ _ h2
        have e1 := spi_transmit_miso _ _ _ _ h1
        have e0 : b1.miso.length + 1 = b.miso.length := by
          rw [e1]; cases rx <;> simp [reqn_set_low]
        cases rx <;> simp only [Except.ok.injEq, Prod.mk.injEq] at h <;> rw [← h.2] <;>
          simp only [reqn_set_high] <;> omega

theorem nrf_receive_miso (rx r : nrf_rx) (b b' : Bus) (h : nrf_receive rx b = .ok (r, b')) :
    b'.miso.length + 2 ≤ b.miso.length := by
  unfold nrf_receive at h
  split at h
  · simp at h
  · rename_i r1 b1 h1
    simp only [Except.ok.injEq, Prod.mk.injEq] at h
    rw [← h.2]
    exact nrf_transmit_miso _ _ _ _ _ h1

theorem nrf_transmit_both_miso (tx : nrf_tx) (rx r : nrf_rx) (b b' : Bus)
    (h : nrf_transmit_both tx rx b = .ok (r, b')) : b'.miso.length + 2 ≤ b.miso.length := by
  unfold nrf_transmit_both at h
  split at h
  · simp at h
  · rename_i r1 b1 h1
    simp only [Except.ok.injEq, Prod.mk.injEq] at h
    rw [← h.2]
    exact nrf_transmit_miso _ _ _ _ _ h1

/-- Fuel above the script length is never used up by the setup loop: the
result does not depend on it. -/
theorem setup_send_loop_fuel (cfg : Services) :
    ∀ (f g cnt : Nat) (s : State), s.bus.miso.length < f → s.bus.miso.length < g →
      setup_send_loop cfg f cnt s = setup_send_loop cfg g cnt s := by
  intro f
  induction f with
  | zero => intro g cnt s h; omega
  | succ f ih =>
    intro g cnt s hf hg
    obtain ⟨g, rfl⟩ : ∃ k, g = k + 1 := ⟨g - 1, by omega⟩
    rw [setup_send_loop, setup_send_loop]
    split
    · simp only
      cases hx : nrf_transmit_both (setup_tx (setup_data cfg cnt)) rx_zero s.bus with
      | error e => rfl
      | ok p =>
        obtain ⟨r, b⟩ := p
        have hm := nrf_transmit_both_miso _ _ _ _ _ hx
        simp only
        split
        · exact ih _ _ _ (by simp only; omega) (by simp only; omega)
        · split
          · rfl
          · exact ih _ _ _ (by simp only; omega) (by simp only; omega)
    · rfl

/-- Fuel above the script length is never used up by the first receive loop. -/
theorem recv_responses_loop_fuel (cfg : Services) :
    ∀ (f g : Nat) (s : State), s.bus.miso.length < f → s.bus.miso.length < g →
      recv_responses_loop cfg f s = recv_responses_loop cfg g s := by
  intro f
  induction f with
  | zero => intro g s h; omega
  | succ f ih =>
    intro g s hf hg
    obtain ⟨g, rfl⟩ : ∃ k, g = k + 1 := ⟨g - 1, by omega⟩
    rw [recv_responses_loop, recv_responses_loop]
    simp only
    cases hx : nrf_receive rx_zero s.bus with
    | error e => rfl
    | ok p =>
      obtain ⟨r, b⟩ := p
      have hm := nrf_receive_miso _ _ _ _ hx
      simp only
      split
      · exact ih _ _ (by simp only; omega) (by simp only; omega)
      · rfl

/-- Fuel above the script length is never used up by the second receive
loop. -/
theorem wait_started_loop_fuel :
    ∀ (f g : Nat) (s : State), s.bus.miso.length < f → s.bus.miso.length < g →
      wait_started_loop f s = wait_started_loop g s := by
  intro f
  induction f with
  | zero => intro g s h; omega
  | succ f ih =>
    intro g s hf hg
    obtain ⟨g, rfl⟩ : ∃ k, g = k + 1 := ⟨g - 1, by omega⟩
    rw [wait_started_loop, wait_started_loop]
    simp only
    cases hx : nrf_receive rx_zero s.bus with
    | error e => rfl
    | ok p =>
      obtain ⟨r, b⟩ := p
      have hm := nrf_receive_miso _ _ _ _ hx
      simp only
      split
      · exact ih _ _ (by simp only; omega) (by simp only; omega)
      · rfl

/-- With the button on pipe 15 the test `pipes_open & (1 << 15)` of
`nrf_send_button_data` does not read bit 15: with only pipe 16 open it goes on
to send. -/
theorem nrf_send_button_data_pipe15 :
    Nat.testBit 0x10000 15 = false ∧
      (nrf_send_button_data { services_example with PIPE_EXAMPLE_SERVICE_BUTTON_STATE_TX := 15 } 1
        (state_pipes [0, 0, 0, 0] 0 0x10000 0)).toOption.map (fun p => (p.1, p.2.bus.calls.length)) =
        some (0, 1) := by
  decide

/-- C11, at a failing input: for the Connected frame with identifier bytes
`data[2..7] = [1, 2, 3, 4, 5, 6]` the claim has "06:05:04:03:02:01" written
after "Connection from: "; `nrf_parse` writes "06:05:04:03:02:02": `data[3]`
twice and `data[2]` not at all. -/
theorem nrf_parse_connected_identifier :
    (nrf_parse services_example (connected_frame 0 [1, 2, 3, 4, 5, 6]) (state_example [])).uart =
      "Connection from: 06:05:04:03:02:02\r\n".toList := by
  decide

/-- What a non-empty Connected frame makes `nrf_parse` write: the hex values
of `data[7]`, `data[6]`, `data[5]`, `data[4]`, `data[3]` and `data[3]` again. -/
theorem nrf_parse_connected_output (cfg : Services) (rx : nrf_rx) (s : State)
    (hlen : rx.length ≠ 0) (hev : rx.at 0 = NRF_EVT_CONNECTED) :
    (nrf_parse cfg rx s).uart =
      uart_newline (uart_puthex (rx.at 3) (uart_putchar ':' (uart_puthex (rx.at 3)
        (uart_putchar ':' (uart_puthex (rx.at 4) (uart_putchar ':' (uart_puthex (rx.at 5)
        (uart_putchar ':' (uart_puthex (rx.at 6) (uart_putchar ':' (uart_puthex (rx.at 7)
        (uart_print_pgm "Connection from: " s.uart)))))))))))) := by
  unfold nrf_parse
  have e1 : rx.at 0 ≠ NRF_EVT_CMD_RESPONSE := by rw [hev]; decide
  rw [if_neg hlen, if_neg e1, if_pos hev]
  rfl

/-- C12, counterexample: a non-empty Disconnected frame dispatched in state
Connecting leaves `nrf_connect_state` = Disconnected. -/
theorem nrf_parse_connecting_disconnected :
    (nrf_parse services_example (event_frame 3 NRF_EVT_DISCONNECTED)
      (state_pipes [] NRF_STATE_CONNECTING 0 0)).nrf_connect_state = NRF_STATE_DISCONNECT := by
  decide

/-- C12, amended: from Connecting, `nrf_parse` leaves Connecting, Connected or
Disconnected: Connected exactly for a non-empty Connected frame, Disconnected
exactly for a non-empty Disconnected frame, Connecting for every other frame.
`NUMBER_OF_PIPES ≤ 254` is the range in which the 8 bit loop that lists the
open pipes comes to an end. -/
theorem nrf_parse_from_connecting (cfg : Services) (rx : nrf_rx) (s : State)
    (_hN : cfg.NUMBER_OF_PIPES ≤ 254) (hs : s.nrf_connect_state = NRF_STATE_CONNECTING) :
    ((nrf_parse cfg rx s).nrf_connect_state = NRF_STATE_CONNECTED ↔
        rx.length ≠ 0 ∧ rx.at 0 = NRF_EVT_CONNECTED) ∧
      ((nrf_parse cfg rx s).nrf_connect_state = NRF_STATE_DISCONNECT ↔
        rx.length ≠ 0 ∧ rx.at 0 = NRF_EVT_DISCONNECTED) ∧
      ((nrf_parse cfg rx s).nrf_connect_state = NRF_STATE_CONNECTING ↔
        ¬ (rx.length ≠ 0 ∧ (rx.at 0 = NRF_EVT_CONNECTED ∨ rx.at 0 = NRF_EVT_DISCONNECTED))) := by
  obtain ⟨h1, _⟩ := nrf_parse_state cfg rx s
  rw [h1, hs]
  by_cases h0 : rx.length = 0
  · simp [h0, NRF_STATE_CONNECTING, NRF_STATE_CONNECTED, NRF_STATE_DISCONNECT]
  · by_cases hc : rx.at 0 = NRF_EVT_CONNECTED
    · simp [h0, hc, NRF_STATE_CONNECTING, NRF_STATE_CONNECTED, NRF_STATE_DISCONNECT,
        NRF_EVT_CONNECTED, NRF_EVT_DISCONNECTED]
    · by_cases hd : rx.at 0 = NRF_EVT_DISCONNECTED
      · simp [h0, hd, NRF_STATE_CONNECTING, NRF_STATE_CONNECTED, NRF_STATE_DISCONNECT,
          NRF_EVT_CONNECTED, NRF_EVT_DISCONNECTED]
      · simp [h0, hc, hd, NRF_STATE_CONNECTING, NRF_STATE_CONNECTED, NRF_STATE_DISCONNECT]

theorem nrf_parse_from_connecting_witness :
    ((nrf_parse services_example (event_frame 3 NRF_EVT_DISCONNECTED)
          (state_pipes [] NRF_STATE_CONNECTING 0 0)).nrf_connect_state = NRF_STATE_CONNECTED ↔
        (event_frame 3 NRF_EVT_DISCONNECTED).length ≠ 0 ∧
          (event_frame 3 NRF_EVT_DISCONNECTED).at 0 = NRF_EVT_CONNECTED) ∧
      ((nrf_parse services_example (event_frame 3 NRF_EVT_DISCONNECTED)
          (state_pipes [] NRF_STATE_CONNECTING 0 0)).nrf_connect_state = NRF_STATE_DISCONNECT ↔
        (event_frame 3 NRF_EVT_DISCONNECTED).length ≠ 0 ∧
          (event_frame 3 NRF_EVT_DISCONNECTED).at 0 = NRF_EVT_DISCONNECTED) ∧
      ((nrf_parse services_example (event_frame 3 NRF_EVT_DISCONNECTED)
          (state_pipes [] NRF_STATE_CONNECTING 0 0)).nrf_connect_state = NRF_STATE_CONNECTING ↔
        ¬ ((event_frame 3 NRF_EVT_DISCONNECTED).length ≠ 0 ∧
          ((event_frame 3 NRF_EVT_DISCONNECTED).at 0 = NRF_EVT_CONNECTED ∨
            (event_frame 3 NRF_EVT_DISCONNECTED).at 0 = NRF_EVT_DISCONNECTED))) :=
  nrf_parse_from_connecting services_example (event_frame 3 NRF_EVT_DISCONNECTED)
    (state_pipes [] NRF_STATE_CONNECTING 0 0) (by decide) (by decide)

/-- C14: for a frame with `length` 0, whatever its data bytes, `nrf_parse`
returns the state it was given: connection state, `pipes_open`, the registers
and the UART output are all as before. -/
theorem nrf_parse_empty (cfg : Services) (rx : nrf_rx) (s : State) (hlen : rx.length = 0) :
    nrf_parse cfg rx s = s := by
  unfold nrf_parse
  rw [if_pos hlen]

theorem nrf_parse_empty_witness :
    nrf_parse services_example (event_frame 0 NRF_EVT_CONNECTED) (state_example []) =
        state_example [] ∧
      nrf_parse services_example (event_frame 0 NRF_EVT_DISCONNECTED)
        (state_pipes [] NRF_STATE_CONNECTED 14 4) = state_pipes [] NRF_STATE_CONNECTED 14 4 ∧
      nrf_parse services_example (event_frame 0 NRF_EVT_PIPE_STATUS)
        (state_pipes [] NRF_STATE_CONNECTED 14 4) = state_pipes [] NRF_STATE_CONNECTED 14 4 :=
  ⟨nrf_parse_empty services_example (event_frame 0 NRF_EVT_CONNECTED) (state_example []) rfl,
    nrf_parse_empty services_example (event_frame 0 NRF_EVT_DISCONNECTED) _ rfl,
    nrf_parse_empty services_example (event_frame 0 NRF_EVT_PIPE_STATUS) _ rfl⟩

/-- C15: for a non-empty frame whose `data[0]` is none of Connected,
Disconnected and PipeStatus (CommandResponse, DataReceived and every other
value), `nrf_parse` leaves `nrf_connect_state` and `pipes_open` as they were.
`nrf_parse` is a total function of the frame, so it is defined for every
opcode. -/
theorem nrf_parse_other_opcode (cfg : Services) (rx : nrf_rx) (s : State)
    (hlen : rx.length ≠ 0) (h1 : rx.at 0 ≠ NRF_EVT_CONNECTED)
    (h2 : rx.at 0 ≠ NRF_EVT_DISCONNECTED) (h3 : rx.at 0 ≠ NRF_EVT_PIPE_STATUS) :
    (nrf_parse cfg rx s).nrf_connect_state = s.nrf_connect_state ∧
      (nrf_parse cfg rx s).pipes_open = s.pipes_open := by
  obtain ⟨e1, e2⟩ := nrf_parse_state cfg rx s
  rw [e1, e2, if_neg hlen, if_neg h1, if_neg h2, if_neg hlen, if_neg h2, if_neg h3]
  exact ⟨rfl, rfl⟩

theorem nrf_parse_other_opcode_witness :
    ((nrf_parse services_example (event_frame 3 NRF_EVT_CMD_RESPONSE)
          (state_pipes [] NRF_STATE_CONNECTED 14 4)).nrf_connect_state = NRF_STATE_CONNECTED ∧
        (nrf_parse services_example (event_frame 3 NRF_EVT_CMD_RESPONSE)
          (state_pipes [] NRF_STATE_CONNECTED 14 4)).pipes_open = 14) ∧
      ((nrf_parse services_example (event_frame 3 NRF_EVT_DATA_RECEIVED)
          (state_pipes [] NRF_STATE_CONNECTED 14 4)).nrf_connect_state = NRF_STATE_CONNECTED ∧
        (nrf_parse services_example (event_frame 3 NRF_EVT_DATA_RECEIVED)
          (state_pipes [] NRF_STATE_CONNECTED 14 4)).pipes_open = 14) ∧
      ((nrf_parse services_example (event_frame 3 0xff)
          (state_pipes [] NRF_STATE_CONNECTED 14 4)).nrf_connect_state = NRF_STATE_CONNECTED ∧
        (nrf_parse services_example (event_frame 3 0xff)
          (state_pipes [] NRF_STATE_CONNECTED 14 4)).pipes_open = 14) :=
  ⟨nrf_parse_other_opcode services_example (event_frame 3 NRF_EVT_CMD_RESPONSE)
      (state_pipes [] NRF_STATE_CONNECTED 14 4) (by decide) (by decide) (by decide) (by decide),
    nrf_parse_other_opcode services_example (event_frame 3 NRF_EVT_DATA_RECEIVED)
      (state_pipes [] NRF_STATE_CONNECTED 14 4) (by decide) (by decide) (by decide) (by decide),
    nrf_parse_other_opcode services_example (event_frame 3 0xff)
      (state_pipes [] NRF_STATE_CONNECTED 14 4) (by decide) (by decide) (by decide) (by decide)⟩

theorem nrf_parse_mask (cfg : Services) (rx : nrf_rx) (s : State) :
    (nrf_parse cfg rx s).nrf_tx_pipe_map = s.nrf_tx_pipe_map := by
  unfold nrf_parse
  split
  · rfl
  · split
    · split <;> rfl
    · split
      · simp only [foldl_uart (fun u i => uart_putchar ':' (uart_puthex (rx.at (7 - i)) u)),
          led_connect_on]
      · split
        · rfl
        · split
          · simp only [foldl_pipes_open (fun p i => p ||| to_u64 (int_shl (rx.at (i + 1)) (8 * i)))]
          · split
            · split
              · split <;> rfl
              · rfl
            · simp only [foldl_uart (fun u i => uart_puthex (rx.at i) (uart_putchar ' ' u))]

/-- C20: a non-empty Disconnected frame dispatched in state Disconnected
leaves the state Disconnected, and dispatching it twice leaves the same
`nrf_connect_state` and `pipes_open` as dispatching it once, for every
`pipes_open` and every mask. `NUMBER_OF_PIPES ≤ 254` is the range in which the
8 bit loop that lists the open pipes comes to an end. -/
theorem nrf_parse_disconnected_twice (cfg : Services) (rx : nrf_rx) (s : State)
    (_hN : cfg.NUMBER_OF_PIPES ≤ 254) (hlen : rx.length ≠ 0)
    (hev : rx.at 0 = NRF_EVT_DISCONNECTED) :
    (s.nrf_connect_state = NRF_STATE_DISCONNECT →
        (nrf_parse cfg rx s).nrf_connect_state = NRF_STATE_DISCONNECT) ∧
      (nrf_parse cfg rx (nrf_parse cfg rx s)).nrf_connect_state =
        (nrf_parse cfg rx s).nrf_connect_state ∧
      (nrf_parse cfg rx (nrf_parse cfg rx s)).pipes_open = (nrf_parse cfg rx s).pipes_open := by
  have e1 : rx.at 0 ≠ NRF_EVT_CONNECTED := by rw [hev]; decide
  obtain ⟨a1, a2⟩ := nrf_parse_state cfg rx s
  obtain ⟨b1, b2⟩ := nrf_parse_state cfg rx (nrf_parse cfg rx s)
  rw [if_neg hlen, if_neg e1, if_pos hev] at a1 b1
  rw [if_neg hlen, if_pos hev] at a2 b2
  refine ⟨fun _ => a1, by rw [b1, a1], ?_⟩
  rw [b2, nrf_parse_mask, a2, Nat.and_assoc, Nat.and_self]

theorem nrf_parse_disconnected_twice_witness :
    ((state_pipes [] NRF_STATE_DISCONNECT 14 4).nrf_connect_state = NRF_STATE_DISCONNECT →
        (nrf_parse services_example (event_frame 3 NRF_EVT_DISCONNECTED)
          (state_pipes [] NRF_STATE_DISCONNECT 14 4)).nrf_connect_state = NRF_STATE_DISCONNECT) ∧
      (nrf_parse services_example (event_frame 3 NRF_EVT_DISCONNECTED)
          (nrf_parse services_example (event_frame 3 NRF_EVT_DISCONNECTED)
            (state_pipes [] NRF_STATE_DISCONNECT 14 4))).nrf_connect_state =
        (nrf_parse services_example (event_frame 3 NRF_EVT_DISCONNECTED)
          (state_pipes [] NRF_STATE_DISCONNECT 14 4)).nrf_connect_state ∧
      (nrf_parse services_example (event_frame 3 NRF_EVT_DISCONNECTED)
          (nrf_parse services_example (event_frame 3 NRF_EVT_DISCONNECTED)
            (state_pipes [] NRF_STATE_DISCONNECT 14 4))).pipes_open =
        (nrf_parse services_example (event_frame 3 NRF_EVT_DISCONNECTED)
          (state_pipes [] NRF_STATE_DISCONNECT 14 4)).pipes_open :=
  nrf_parse_disconnected_twice services_example (event_frame 3 NRF_EVT_DISCONNECTED)
    (state_pipes [] NRF_STATE_DISCONNECT 14 4) (by decide) (by decide) (by decide)

/-- C17: when the peer answers the exchange, `nrf_advertise` makes exactly one
call of `nrf_transmit`, send-only, with the frame of length 5, command Connect
(0x0f), `data[0..3] = [0x00, 0x00, 0x80, 0x00]` and the other data bytes zero;
the first six bytes it shifts out are 5, 0x0f, 0x00, 0x00, 0x80, 0x00; and
`nrf_connect_state` is as before. -/
theorem nrf_advertise_frame (s : State) (r : Reply) (rest : List Nat) (hfit : r.fits 5)
    (hm : s.bus.miso = r.bytes ++ rest) :
    ∃ t, nrf_advertise s = .ok t ∧ t.tx = advertise_frame ∧
      t.bus.calls = s.bus.calls ++ [⟨some advertise_frame, true⟩] ∧
      (t.bus.mosi.drop s.bus.mosi.length).take 6 = [5, 0x0f, 0x00, 0x00, 0x80, 0x00] ∧
      t.bus.miso = rest ∧ t.nrf_connect_state = s.nrf_connect_state := by
  have hframe : ({ ({ ({ ({ ({ ({ tx_zero with length := 5 } : nrf_tx) with
      command := NRF_CMD_CONNECT } : nrf_tx) with
      data := tx_zero.data.set 0 (data16_lsb 0) } : nrf_tx) with
      data := (tx_zero.data.set 0 (data16_lsb 0)).set 1 (data16_msb 0) } : nrf_tx) with
      data := ((tx_zero.data.set 0 (data16_lsb 0)).set 1 (data16_msb 0)).set 2 (data16_lsb 128) } : nrf_tx) with
      data := (((tx_zero.data.set 0 (data16_lsb 0)).set 1 (data16_msb 0)).set 2
        (data16_lsb 128)).set 3 (data16_msb 128) } : nrf_tx) = advertise_frame := by
    decide
  unfold nrf_advertise
  simp only
  rw [hframe, nrf_send_reply advertise_frame r s.bus rest hfit hm]
  refine ⟨_, rfl, rfl, by simp [exchanged], ?_, by simp [exchanged], rfl⟩
  obtain ⟨_, _, _, hlen, _⟩ := hfit
  obtain ⟨k, hk⟩ : ∃ k, r.payload.length = k + 4 := ⟨r.payload.length - 4, by omega⟩
  simp only [exchanged, hk, List.range'_succ]
  simp
  decide

theorem nrf_advertise_frame_witness :
    ∃ t, nrf_advertise (state_example [0, 0, 0, 0, 0, 0]) = .ok t ∧ t.tx = advertise_frame ∧
      t.bus.calls = [] ++ [⟨some advertise_frame, true⟩] ∧
      (t.bus.mosi.drop (state_example [0, 0, 0, 0, 0, 0]).bus.mosi.length).take 6 =
        [5, 0x0f, 0x00, 0x00, 0x80, 0x00] ∧
      t.bus.miso = [] ∧ t.nrf_connect_state = NRF_STATE_DISCONNECT :=
  nrf_advertise_frame (state_example [0, 0, 0, 0, 0, 0]) ⟨0, 0, [0, 0, 0, 0]⟩ [] (by decide) rfl

/-- C18: when the first frame is not DeviceStarted or its error code `data[2]`
is not NoError, `nrf_setup` returns -1 after one receive-only exchange: the
only call of `nrf_transmit` is that one, only the first reply has been taken
from the peer, and `opmode` and `pipes` are as before. -/
theorem nrf_setup_unexpected_event (cfg : Services) (s : State) (first : Reply)
    (rest : List Nat) (hfit : first.fits 0)
    (hbad : first.at 0 ≠ NRF_EVT_DEVICE_STARTED ∨ first.at 2 ≠ NRF_ERR_NO_ERROR)
    (hm : s.bus.miso = first.bytes ++ rest) :
    ∃ t, nrf_setup cfg s = .ok (-1, t) ∧ t.bus.calls = s.bus.calls ++ [⟨none, false⟩] ∧
      t.bus.miso = rest ∧ t.opmode = s.opmode ∧ t.pipes = s.pipes ∧ t.PORTD = s.PORTD := by
  unfold nrf_setup
  simp only
  rw [nrf_receive_reply first (ble_reset_high s.bus) rest hfit (by simpa [ble_reset_high] using hm)]
  simp only [Reply.frame_at]
  rw [if_pos hbad]
  exact ⟨_, rfl, by simp [exchanged, ble_reset_high], by simp [exchanged], rfl, rfl, rfl⟩

theorem nrf_setup_unexpected_event_witness :
    (∃ t, nrf_setup services_example (state_example [0, 4, 0x81, 2, 1, 3]) = .ok (-1, t) ∧
        t.bus.calls = [] ++ [⟨none, false⟩] ∧ t.bus.miso = [] ∧ t.opmode = 0 ∧ t.pipes = 0 ∧
        t.PORTD = 0x2f) ∧
      ∃ t, nrf_setup services_example (state_example [0, 0, 9]) = .ok (-1, t) ∧
        t.bus.calls = [] ++ [⟨none, false⟩] ∧ t.bus.miso = [9] ∧ t.opmode = 0 ∧ t.pipes = 0 ∧
        t.PORTD = 0x2f :=
  ⟨nrf_setup_unexpected_event services_example (state_example [0, 4, 0x81, 2, 1, 3])
      ⟨0, 4, [0x81, 2, 1, 3]⟩ [] (by decide) (by decide) rfl,
    nrf_setup_unexpected_event services_example (state_example [0, 0, 9])
      ⟨0, 0, []⟩ [9] (by decide) (by decide) rfl⟩

/-- What every returning run of `nrf_setup` leaves: the connection state, the
open pipes and the TX pipe mask as before, a return value from 0 to -5, and
PORTD with the setup LED bit set when the value is 0 and as before
otherwise. -/
theorem nrf_setup_effect (cfg : Services) (s t : State) (r : Int)
    (h : nrf_setup cfg s = .ok (r, t)) :
    t.nrf_connect_state = s.nrf_connect_state ∧ t.pipes_open = s.pipes_open ∧
      t.nrf_tx_pipe_map = s.nrf_tx_pipe_map ∧
      (r = 0 ∨ r = -1 ∨ r = -2 ∨ r = -3 ∨ r = -4 ∨ r = -5) ∧
      (r = 0 → t.PORTD = s.PORTD ||| 0x80) ∧ (r ≠ 0 → t.PORTD = s.PORTD) := by
  unfold nrf_setup at h
  simp only at h
  split at h
  · simp at h
  · rename_i f b hf
    split at h
    · simp only [Except.ok.injEq, Prod.mk.injEq] at h
      obtain ⟨hr, ht⟩ := h
      subst hr; subst ht
      simp
    · split at h
      · simp only [Except.ok.injEq, Prod.mk.injEq] at h
        obtain ⟨hr, ht⟩ := h
        subst hr; subst ht
        simp
      · split at h
        · simp at h
        · rename_i s1 h1
          have c1 := setup_send_loop_core cfg _ _ _ _ _ h1
          simp only [Except.ok.injEq, Prod.mk.injEq] at h
          obtain ⟨hr, ht⟩ := h
          subst hr; subst ht
          simp only [same_core] at c1
          simp [c1]
        · rename_i s1 h1
          have c1 := setup_send_loop_core cfg _ _ _ _ _ h1
          split at h
          · simp at h
          · rename_i s2 h2
            have c2 := recv_responses_loop_core cfg _ _ _ h2
            split at h
            · simp only [Except.ok.injEq, Prod.mk.injEq] at h
              obtain ⟨hr, ht⟩ := h
              subst hr; subst ht
              simp only [same_core] at c1 c2
              simp [c1, c2]
            · split at h
              · simp at h
              · rename_i s3 h3
                have c3 := wait_started_loop_core _ _ _ h3
                simp only [same_core] at c1 c2 c3
                split at h
                · simp only [Except.ok.injEq, Prod.mk.injEq] at h
                  obtain ⟨hr, ht⟩ := h
                  subst hr; subst ht
                  simp [c1, c2, c3]
                · simp only [Except.ok.injEq, Prod.mk.injEq] at h
                  obtain ⟨hr, ht⟩ := h
                  subst hr; subst ht
                  simp [c1, c2, c3, led_setup_on]

/-- The run of `nrf_setup` up to the DeviceStarted frame that ends the last
receive loop, for a peer that follows the protocol up to there. -/
theorem nrf_setup_to_last (cfg : Services) (s : State) (first complete last : Reply)
    (rs cs os : List Reply) (rest : List Nat)
    (hNB : cfg.NB_SETUP_MESSAGES ≤ 255)
    (hne : cfg.ACI_STATUS_TRANSACTION_CONTINUE ≠ cfg.ACI_STATUS_TRANSACTION_COMPLETE)
    (hfirst : first.fits 0 ∧ first.started_in_setup)
    (hrs : rs.length = cfg.NB_SETUP_MESSAGES ∧ streamed cfg 0 rs)
    (hcs : received (fun r => r.is_response cfg.ACI_STATUS_TRANSACTION_CONTINUE) cs)
    (hcomplete : complete.fits 0 ∧ complete.is_response cfg.ACI_STATUS_TRANSACTION_COMPLETE)
    (hos : received (fun r => r.at 0 ≠ NRF_EVT_DEVICE_STARTED) os)
    (hlast : last.fits 0 ∧ last.at 0 = NRF_EVT_DEVICE_STARTED)
    (hm : s.bus.miso = script ([first] ++ rs ++ cs ++ [complete] ++ os ++ [last]) ++ rest) :
    ∃ u : State, u.rx = last.frame ∧ u.bus.miso = rest ∧ u.opmode = first.at 1 ∧ u.pipes = first.at 3 ∧
      u.PORTD = s.PORTD ∧
      nrf_setup cfg s =
        if last.at 2 ≠ NRF_ERR_NO_ERROR then
          .ok (-5, { u with uart := nrf_print_rx u.rx u.uart })
        else
          .ok (0, led_setup_on { u with uart := nrf_print_rx u.rx u.uart,
                                        opmode := last.at 1, pipes := last.at 3 }) := by
  have hm1 : s.bus.miso = first.bytes ++
      (script rs ++ (script cs ++ (complete.bytes ++ (script os ++ (last.bytes ++ rest))))) := by
    simpa [script_append, script] using hm
  rw [nrf_setup_accepted cfg s first _ hfirst.1 hfirst.2 hm1]
  obtain ⟨t1, e1, m1, _⟩ := setup_send_loop_streamed cfg hNB rs 0
    ((script rs ++ (script cs ++ (complete.bytes ++ (script os ++ (last.bytes ++ rest))))).length + 1)
    (after_first first _ s) _ (by simpa using hrs.1)
    (by have := script_length rs; simp only [List.length_append]; omega) hrs.2 rfl
  have c1 := setup_send_loop_core cfg _ _ _ _ _ e1
  rw [e1]
  simp only
  have hnc : ¬ complete.is_response cfg.ACI_STATUS_TRANSACTION_CONTINUE := by
    intro h; exact hne (h.2.2.symm.trans hcomplete.2.2.2)
  obtain ⟨t2, e2, r2, m2, _⟩ := recv_responses_loop_script cfg cs (t1.bus.miso.length + 1) t1
    complete _ (by have := script_length cs; rw [m1]; simp only [List.length_append]; omega)
    hcs hcomplete.1 hnc m1
  have c2 := recv_responses_loop_core cfg _ _ _ e2
  rw [e2]
  have hcomp : ¬ (t2.rx.at 0 ≠ NRF_EVT_CMD_RESPONSE ∨ t2.rx.at 1 ≠ NRF_CMD_SETUP ∨
      t2.rx.at 2 ≠ cfg.ACI_STATUS_TRANSACTION_COMPLETE) := by
    rw [r2]; simp only [Reply.frame_at]
    have := hcomplete.2
    simp only [Reply.is_response] at this
    tauto
  simp only [hcomp, if_false]
  obtain ⟨t3, e3, r3, m3, _, _⟩ := wait_started_loop_script os (t2.bus.miso.length + 1) t2
    last rest (by have := script_length os; rw [m2]; simp only [List.length_append]; omega)
    hos hlast.1 hlast.2 m2
  have c3 := wait_started_loop_core _ _ _ e3
  rw [e3]
  have c := same_core_trans c1 (same_core_trans c2 c3)
  simp only [same_core] at c
  refine ⟨t3, r3, m3, by rw [c.2.1]; rfl, by rw [c.2.2.1]; rfl, by rw [c.2.2.2.2.2.1]; rfl, ?_⟩
  simp only [r3, Reply.frame_at]

/-- C19: every returning run of `nrf_setup` returns one of 0, -1, -2, -3, -4,
-5 and leaves PORTD with the setup LED bit set when it returns 0 and PORTD as
it was otherwise. For a peer that follows the protocol up to a last
DeviceStarted frame whose error code `data[2]` is not NoError, `nrf_setup`
returns -5, PORTD is as before, and `opmode` and `pipes` are `data[1]` and
`data[3]` of the first frame. -/
theorem nrf_setup_post_error (cfg : Services) (s : State) (first complete last : Reply)
    (rs cs os : List Reply) (rest : List Nat)
    (hNB : cfg.NB_SETUP_MESSAGES ≤ 255)
    (hne : cfg.ACI_STATUS_TRANSACTION_CONTINUE ≠ cfg.ACI_STATUS_TRANSACTION_COMPLETE)
    (hfirst : first.fits 0 ∧ first.started_in_setup)
    (hrs : rs.length = cfg.NB_SETUP_MESSAGES ∧ streamed cfg 0 rs)
    (hcs : received (fun r => r.is_response cfg.ACI_STATUS_TRANSACTION_CONTINUE) cs)
    (hcomplete : complete.fits 0 ∧ complete.is_response cfg.ACI_STATUS_TRANSACTION_COMPLETE)
    (hos : received (fun r => r.at 0 ≠ NRF_EVT_DEVICE_STARTED) os)
    (hlast : last.fits 0 ∧ last.at 0 = NRF_EVT_DEVICE_STARTED ∧ last.at 2 ≠ NRF_ERR_NO_ERROR)
    (hm : s.bus.miso = script ([first] ++ rs ++ cs ++ [complete] ++ os ++ [last]) ++ rest) :
    (∀ (s0 t : State) (r : Int), nrf_setup cfg s0 = .ok (r, t) →
        (r = 0 ∨ r = -1 ∨ r = -2 ∨ r = -3 ∨ r = -4 ∨ r = -5) ∧
        (r = 0 → t.PORTD = s0.PORTD ||| 0x80) ∧ (r ≠ 0 → t.PORTD = s0.PORTD)) ∧
      ∃ t, nrf_setup cfg s = .ok (-5, t) ∧ t.PORTD = s.PORTD ∧
        t.opmode = first.at 1 ∧ t.pipes = first.at 3 ∧ t.bus.miso = rest := by
  refine ⟨fun s0 t r h => (nrf_setup_effect cfg s0 t r h).2.2.2, ?_⟩
  obtain ⟨u, _, hmiso, hop, hpi, hpd, hrun⟩ := nrf_setup_to_last cfg s first complete last
    rs cs os rest hNB hne hfirst hrs hcs hcomplete hos ⟨hlast.1, hlast.2.1⟩ hm
  rw [hrun, if_pos hlast.2.2]
  exact ⟨_, rfl, hpd, hop, hpi, hmiso⟩

theorem nrf_setup_post_error_witness :
    (∀ (s0 t : State) (r : Int), nrf_setup services_example s0 = .ok (r, t) →
        (r = 0 ∨ r = -1 ∨ r = -2 ∨ r = -3 ∨ r = -4 ∨ r = -5) ∧
        (r = 0 → t.PORTD = s0.PORTD ||| 0x80) ∧ (r ≠ 0 → t.PORTD = s0.PORTD)) ∧
      ∃ t, nrf_setup services_example (state_example
          (script ([⟨0, 4, [0x81, 2, 0, 3]⟩] ++ [⟨0, 0, [0, 0]⟩, ⟨0, 3, [0x84, 6, 1]⟩] ++
            [⟨0, 3, [0x84, 6, 1]⟩] ++ [⟨0, 3, [0x84, 6, 2]⟩] ++ [⟨0, 0, []⟩] ++
            [⟨0, 4, [0x81, 3, 0x83, 5]⟩]) ++ [])) = .ok (-5, t) ∧
        t.PORTD = 0x2f ∧ t.opmode = 2 ∧ t.pipes = 3 ∧ t.bus.miso = [] :=
  nrf_setup_post_error services_example _ ⟨0, 4, [0x81, 2, 0, 3]⟩ ⟨0, 3, [0x84, 6, 2]⟩
    ⟨0, 4, [0x81, 3, 0x83, 5]⟩ [⟨0, 0, [0, 0]⟩, ⟨0, 3, [0x84, 6, 1]⟩] [⟨0, 3, [0x84, 6, 1]⟩]
    [⟨0, 0, []⟩] [] (by decide) (by decide) (by decide) (by decide) (by decide) (by decide)
    (by decide) (by decide) rfl

/-- C16, counterexample: `nrf_reset_module` called in state Connected (here
with a peer whose first frame is empty, so that `nrf_setup` returns -1)
leaves `nrf_connect_state` = Disconnected. -/
theorem nrf_reset_module_writes_state :
    (nrf_reset_module services_example (state_pipes [0, 0] NRF_STATE_CONNECTED 14 4)).toOption.map
        (fun p => (p.1, p.2.nrf_connect_state, p.2.pipes_open)) =
      some (-1, NRF_STATE_DISCONNECT, 14) := by
  decide

/-- C16, amended: `nrf_setup`, `nrf_advertise`, `nrf_send_button_data`,
`nrf_print_temperature`, `nrf_print_rx` and `nrf_transmit` leave
`nrf_connect_state` and `pipes_open` as they were, for every state and every
peer for which they return; `nrf_reset_module` leaves `pipes_open` as it was
and sets `nrf_connect_state` to Disconnected. (`nrf_print_rx` works on the
UART output and `nrf_transmit` on the bus only, which is how they appear
here.) -/
theorem core_operations_state (cfg : Services) (s : State) :
    (∀ (r : Int) (t : State), nrf_setup cfg s = .ok (r, t) →
        t.nrf_connect_state = s.nrf_connect_state ∧ t.pipes_open = s.pipes_open) ∧
      (∀ (r : Int) (t : State), nrf_reset_module cfg s = .ok (r, t) →
        t.nrf_connect_state = NRF_STATE_DISCONNECT ∧ t.pipes_open = s.pipes_open) ∧
      (∀ (t : State), nrf_advertise s = .ok t →
        t.nrf_connect_state = s.nrf_connect_state ∧ t.pipes_open = s.pipes_open) ∧
      (∀ (button : Nat) (r : Int) (t : State), nrf_send_button_data cfg button s = .ok (r, t) →
        t.nrf_connect_state = s.nrf_connect_state ∧ t.pipes_open = s.pipes_open) ∧
      (∀ (t : State), nrf_print_temperature s = .ok t →
        t.nrf_connect_state = s.nrf_connect_state ∧ t.pipes_open = s.pipes_open) ∧
      (∀ (rx : nrf_rx),
        ({ s with uart := nrf_print_rx rx s.uart } : State).nrf_connect_state =
            s.nrf_connect_state ∧
          ({ s with uart := nrf_print_rx rx s.uart } : State).pipes_open = s.pipes_open) ∧
      (∀ (tx : Option nrf_tx) (rx r : Option nrf_rx) (b : Bus),
        nrf_transmit tx rx s.bus = .ok (r, b) →
          ({ s with bus := b } : State).nrf_connect_state = s.nrf_connect_state ∧
            ({ s with bus := b } : State).pipes_open = s.pipes_open) := by
  refine ⟨?_, ?_, ?_, ?_, ?_, ?_, ?_⟩
  · intro r t h
    have e := nrf_setup_effect cfg s t r h
    exact ⟨e.1, e.2.1⟩
  · intro r t h
    unfold nrf_reset_module at h
    have e := nrf_setup_effect cfg _ t r h
    exact ⟨e.1, e.2.1⟩
  · intro t h
    unfold nrf_advertise at h
    simp only at h
    split at h
    · simp at h
    · simp only [Except.ok.injEq] at h
      rw [← h]
      exact ⟨rfl, rfl⟩
  · intro button r t h
    unfold nrf_send_button_data at h
    split at h
    · simp only [Except.ok.injEq, Prod.mk.injEq] at h
      rw [← h.2]
      exact ⟨rfl, rfl⟩
    · simp only at h
      split at h
      · simp at h
      · simp only [Except.ok.injEq, Prod.mk.injEq] at h
        rw [← h.2]
        exact ⟨rfl, rfl⟩
  · intro t h
    unfold nrf_print_temperature at h
    simp only at h
    split at h
    · simp at h
    · split at h
      · simp at h
      · simp only [Except.ok.injEq] at h
        rw [← h]
        exact ⟨rfl, rfl⟩
  · intro rx
    exact ⟨rfl, rfl⟩
  · intro tx rx r b _
    exact ⟨rfl, rfl⟩

theorem core_operations_state_witness :
    ((nrf_setup_state services_example
          (state_pipes script_example NRF_STATE_CONNECTED 14 4)).nrf_connect_state =
        NRF_STATE_CONNECTED ∧
      (nrf_setup_state services_example
          (state_pipes script_example NRF_STATE_CONNECTED 14 4)).pipes_open = 14) ∧
    ((nrf_reset_module_state services_example
          (state_pipes script_example NRF_STATE_CONNECTED 14 4)).nrf_connect_state =
        NRF_STATE_DISCONNECT ∧
      (nrf_reset_module_state services_example
          (state_pipes script_example NRF_STATE_CONNECTED 14 4)).pipes_open = 14) :=
  ⟨(core_operations_state services_example (state_pipes script_example NRF_STATE_CONNECTED 14 4)).1 0
      (nrf_setup_state services_example (state_pipes script_example NRF_STATE_CONNECTED 14 4))
      (by rfl),
    (core_operations_state services_example (state_pipes script_example NRF_STATE_CONNECTED 14 4)).2.1 0
      (nrf_reset_module_state services_example
        (state_pipes script_example NRF_STATE_CONNECTED 14 4))
      (by rfl)⟩

theorem nrf_tx_at_lt (t : nrf_tx) (h : t.bytes) (i : Nat) : t.at i < 256 := by
  unfold nrf_tx.at
  rw [List.getD_eq_getElem?_getD]
  by_cases hi : i < t.data.length
  · rw [List.getElem?_eq_getElem hi]
    exact h.2.2 _ (List.getElem_mem _)
  · rw [List.getElem?_eq_none (by omega)]
    decide

theorem dummy_tx_at (i : Nat) : dummy_tx.at i = 0 := by
  unfold nrf_tx.at dummy_tx tx_zero
  rw [List.getD_eq_getElem?_getD, List.getElem?_replicate]
  split <;> rfl

/-- An exchange into any frame of 30 data bytes, answered by a reply that
fits. -/
theorem nrf_transmit_fitting (tx : Option nrf_tx) (rx : Option nrf_rx) (r : Reply)
    (b : Bus) (rest : List Nat) (hfit : r.fits (tx.getD dummy_tx).length)
    (hrx : ∀ r0, rx = some r0 → r0.data.length = 30) (hm : b.miso = r.bytes ++ rest) :
    nrf_transmit tx rx b =
      .ok (rx.map (fun r0 => ⟨r.debug, r.length, r.payload ++ r0.data.drop r.payload.length⟩),
        exchanged tx rx.isNone r rest b) := by
  obtain ⟨hd, hl, hp, hlen, ht⟩ := hfit
  have hl256 : r.length < 256 := by omega
  have key : ∀ (t : nrf_tx) (d : Nat) (dd : List Nat) (pb : Nat) (drx : nrf_rx)
      (mo : List Nat) (ca : List Xfer), dd.length = 30 →
      r.payload.length = max (t.length - 1) r.length → t.length ≤ 31 →
      transmit_loop t 31 0 ⟨d, r.length, dd⟩ ⟨pb, drx, r.payload ++ rest, mo, ca⟩ =
        .ok (⟨d, r.length, r.payload ++ dd.drop r.payload.length⟩,
             ⟨pb, drx, rest, mo ++ (List.range' 0 r.payload.length).map (fun j => t.at j % 256),
               ca⟩) := by
    intro t d dd pb drx mo ca h0 h1 h2
    rw [transmit_loop_script t r.payload.length (by omega) r.payload 31 0 _ _ rest
      (by simp) (by omega) (by omega) (by simp; omega) (by simp; omega) hp (by simpa using h0) rfl]
    simp
  have hz : ∀ k, List.drop k rx_zero.data = List.replicate (30 - k) 0 := fun k => by
    show List.drop k (List.replicate 30 0) = _
    exact List.drop_replicate ..
  cases rx with
  | none =>
    cases tx <;>
      simp only [nrf_transmit, Option.getD, Option.isNone, Option.map] at hlen ht ⊢ <;>
      simp only [spi_transmit, reqn_set_low, hm, Reply.bytes, List.cons_append,
        Nat.mod_eq_of_lt hd, Nat.mod_eq_of_lt hl256] <;>
      rw [key _ _ _ _ _ _ _ (show rx_zero.data.length = 30 from rfl) hlen ht] <;>
      simp only [hz] <;>
      simp [exchanged, reqn_set_high, Reply.frame]
  | some r0 =>
    have h0 := hrx r0 rfl
    cases tx <;>
      simp only [nrf_transmit, Option.getD, Option.isNone, Option.map] at hlen ht ⊢ <;>
      simp only [spi_transmit, reqn_set_low, hm, Reply.bytes, List.cons_append,
        Nat.mod_eq_of_lt hd, Nat.mod_eq_of_lt hl256] <;>
      rw [key _ _ _ _ _ _ _ h0 hlen ht] <;>
      simp [exchanged, reqn_set_high]

/-- C13, counterexample: a receive-only call whose peer returns the length
byte 31 needs `rx->data[30]`, which the 30 byte buffers do not have: the call
has no result in the model. -/
theorem nrf_transmit_length_31 :
    nrf_transmit none (some rx_zero)
        (state_example ([0, 31] ++ List.replicate 31 7)).bus =
      .error Fault.out_of_bounds := by
  rfl

/-- C13, amended: for a frame `tx` of bytes with `tx.length ≤ 31` and a peer
whose length byte is at most 30, with `n = max(tx.length - 1, rx.length)` over
the integers, one call of `nrf_transmit` makes `2 + n` byte exchanges: it
shifts out `tx.length`, `tx.command`, `tx.data[0..n-1]` in that order, and the
frame behind `rx` gets the returned bytes as `debug`, `length`,
`data[0..n-1]`, its other data bytes staying as they were. With `tx = NULL`
all bytes shifted out are zero and `n = rx.length`; with `rx = NULL` no frame
is handed back and the bytes go to `dummy_rx`. -/
theorem nrf_transmit_exchange (tx : Option nrf_tx) (rx : Option nrf_rx) (r : Reply)
    (b : Bus) (rest : List Nat) (hfit : r.fits (tx.getD dummy_tx).length)
    (htx : (tx.getD dummy_tx).bytes)
    (hrx : ∀ r0, rx = some r0 → r0.data.length = 30) (hm : b.miso = r.bytes ++ rest) :
    ∃ b', nrf_transmit tx rx b =
        .ok (rx.map (fun r0 => ⟨r.debug, r.length, r.payload ++ r0.data.drop r.payload.length⟩),
          b') ∧
      (r.payload.length : Int) = max (((tx.getD dummy_tx).length : Int) - 1) (r.length : Int) ∧
      b'.miso = rest ∧ b.miso.length = rest.length + (2 + r.payload.length) ∧
      b'.mosi = b.mosi ++ [(tx.getD dummy_tx).length, (tx.getD dummy_tx).command] ++
        (List.range r.payload.length).map (tx.getD dummy_tx).at ∧
      b'.calls = b.calls ++ [⟨tx, rx.isNone⟩] ∧
      (tx = none → r.payload.length = r.length ∧
        b'.mosi = b.mosi ++ List.replicate (2 + r.length) 0) ∧
      (rx = none → b'.dummy_rx = r.frame) := by
  rw [nrf_transmit_fitting tx rx r b rest hfit hrx hm]
  have hlen := hfit.2.2.2.1
  have hmosi : (exchanged tx rx.isNone r rest b).mosi =
      b.mosi ++ [(tx.getD dummy_tx).length, (tx.getD dummy_tx).command] ++
        (List.range r.payload.length).map (tx.getD dummy_tx).at := by
    simp only [exchanged, Nat.mod_eq_of_lt htx.1, Nat.mod_eq_of_lt htx.2.1]
    congr 1
    rw [List.range_eq_range']
    apply List.map_congr_left
    intro j _
    exact Nat.mod_eq_of_lt (nrf_tx_at_lt _ htx j)
  refine ⟨_, rfl, by omega, rfl, by rw [hm]; simp [Reply.bytes]; omega, hmosi, rfl, ?_, ?_⟩
  · intro hnone
    subst hnone
    have hn : r.payload.length = r.length := by
      have : dummy_tx.length = 0 := rfl
      simp only [Option.getD] at hlen
      omega
    refine ⟨hn, ?_⟩
    rw [hmosi, hn]
    simp only [Option.getD]
    have hmap : (List.range r.length).map dummy_tx.at = List.replicate r.length 0 := by
      apply List.ext_getElem
      · simp
      · intro i h1 h2
        simp [dummy_tx_at]
    rw [hmap]
    have : dummy_tx.length = 0 ∧ dummy_tx.command = 0 := ⟨rfl, rfl⟩
    rw [this.1, this.2, Nat.add_comm 2, List.replicate_succ, List.replicate_succ]
    simp
  · intro hnone
    subst hnone
    simp [exchanged]

theorem nrf_transmit_exchange_witness :
    ∃ b', nrf_transmit (some advertise_frame) (some ⟨9, 9, List.replicate 30 9⟩)
          (state_example [1, 2, 3, 4, 5, 6, 7]).bus =
        .ok ((some (⟨9, 9, List.replicate 30 9⟩ : nrf_rx)).map (fun r0 =>
            ⟨1, 2, [3, 4, 5, 6] ++ r0.data.drop (Reply.mk 1 2 [3, 4, 5, 6]).payload.length⟩),
          b') ∧
      (((Reply.mk 1 2 [3, 4, 5, 6]).payload.length : Nat) : Int) =
        max ((((some advertise_frame).getD dummy_tx).length : Int) - 1) ((2 : Nat) : Int) ∧
      b'.miso = [7] ∧
      (state_example [1, 2, 3, 4, 5, 6, 7]).bus.miso.length =
        [7].length + (2 + (Reply.mk 1 2 [3, 4, 5, 6]).payload.length) ∧
      b'.mosi = [] ++ [((some advertise_frame).getD dummy_tx).length,
          ((some advertise_frame).getD dummy_tx).command] ++
        (List.range (Reply.mk 1 2 [3, 4, 5, 6]).payload.length).map
          ((some advertise_frame).getD dummy_tx).at ∧
      b'.calls = [] ++ [⟨some advertise_frame, (some (⟨9, 9, List.replicate 30 9⟩ : nrf_rx)).isNone⟩] ∧
      (some advertise_frame = none → (Reply.mk 1 2 [3, 4, 5, 6]).payload.length = 2 ∧
        b'.mosi = [] ++ List.replicate (2 + 2) 0) ∧
      ((some (⟨9, 9, List.replicate 30 9⟩ : nrf_rx)) = none →
        b'.dummy_rx = (Reply.mk 1 2 [3, 4, 5, 6]).frame) :=
  nrf_transmit_exchange (some advertise_frame) (some ⟨9, 9, List.replicate 30 9⟩)
    ⟨1, 2, [3, 4, 5, 6]⟩ (state_example [1, 2, 3, 4, 5, 6, 7]).bus [7]
    (by decide) (by decide) (by intro r0 h; cases h; rfl) rfl

/-- The padding loop of `uart_putint` writes `digits - 1 - i` zeros (none when
that is not positive). -/
theorem putint_pad_zeros :
    ∀ (c fuel : Nat) (i d : Int) (out : List Char),
      -1 ≤ i → -127 ≤ d → d ≤ 127 → (d - 1 - i).toNat = c → c < fuel →
      putint_pad fuel i d out = out ++ List.replicate c '0' := by
  intro c
  induction c with
  | zero =>
    intro fuel i d out hi hd1 hd2 hc hf
    obtain ⟨f, rfl⟩ : ∃ f, fuel = f + 1 := ⟨fuel - 1, by omega⟩
    rw [putint_pad]
    have e : int8 (d - 1) = d - 1 := by simp only [int8]; omega
    have hn : ¬ (i < int8 (d - 1)) := by rw [e]; omega
    simp only [hn, if_false]
    simp
  | succ k ih =>
    intro fuel i d out hi hd1 hd2 hc hf
    obtain ⟨f, rfl⟩ : ∃ f, fuel = f + 1 := ⟨fuel - 1, by omega⟩
    rw [putint_pad]
    have e : int8 (d - 1) = d - 1 := by simp only [int8]; omega
    have hn : i < int8 (d - 1) := by rw [e]; omega
    simp only [hn, if_true]
    rw [e, ih f i (d - 1) _ hi (by omega) (by omega) (by omega) (by omega)]
    simp [uart_putchar, List.replicate_succ]

theorem digits_length_le_ten (n : Nat) (hn : n < 10 ^ 10) : (Nat.digits 10 n).length ≤ 10 := by
  by_cases h0 : n = 0
  · subst h0; simp
  · have h1 := Nat.base_pow_length_digits_le 10 n (by norm_num) h0
    have h2 : 10 ^ (Nat.digits 10 n).length < 10 ^ 11 := by omega
    have h3 := (Nat.pow_lt_pow_iff_right (by norm_num : 1 < 10)).mp h2
    omega

/-- What `uart_putint(number, digits)` writes for a number from 0 to
9999999999 and `digits` from 1 to 127. -/
theorem uart_putint_padded (n d : Nat) (hn : n < 10 ^ 10) (hd1 : 1 ≤ d) (hd2 : d ≤ 127)
    (out : List Char) :
    uart_putint (n : Int) (d : Int) out =
      out ++ List.replicate (d - (Nat.repr n).toList.length) '0' ++ (Nat.repr n).toList := by
  have hlen := digits_length_le_ten n hn
  rw [repr_digits]
  unfold uart_putint tobuf
  have hneg : ¬ ((n : Int) < 0) := by omega
  simp only [hneg, if_false]
  have hl := tobuf_loop_digits 11 n 0 (List.replicate 10 ' ') (by simpa using hlen) (by omega)
    (by simp)
  simp only [Nat.cast_zero, List.take_zero, List.nil_append, Nat.zero_add] at hl
  rw [hl]
  simp only
  by_cases h0 : n = 0
  · subst h0
    simp only [if_true, Nat.digits_zero, List.length_nil, List.map_nil, List.nil_append]
    have hi : int8 (((int8 (((0 : Nat) : Int) - 1) % 256).toNat : Nat) : Int) = -1 := by decide
    rw [hi, putint_pad_zeros d 257 (-1) (d : Int) out (by omega) (by omega) (by omega) (by omega)
      (by omega)]
    have hput : ∀ b o, putint_digits 129 (-1) b o = o := by
      intro b o; simp [putint_digits]
    rw [hput]
    obtain ⟨k, rfl⟩ : ∃ k, d = k + 1 := ⟨d - 1, by omega⟩
    simp only [List.length_singleton, Nat.add_sub_cancel, List.append_assoc]
    congr 1
    rw [List.replicate_succ']
  · simp only [h0, if_false]
    have hpos : 0 < (Nat.digits 10 n).length := by
      rw [List.length_pos]
      exact Nat.digits_ne_nil_iff_ne_zero.mpr h0
    obtain ⟨k, hk⟩ : ∃ k, (Nat.digits 10 n).length = k + 1 := ⟨_, (Nat.succ_pred_eq_of_pos hpos).symm⟩
    have hi : int8 (((int8 ((((Nat.digits 10 n).length : Nat) : Int) - 1) % 256).toNat : Nat) : Int) =
        (k : Int) := by
      rw [hk]; simp only [int8]; omega
    rw [hi]
    rw [putint_pad_zeros (d - (k + 1)) 257 (k : Int) (d : Int) out (by omega) (by omega) (by omega)
      (by omega) (by omega)]
    rw [putint_digits_take 129 k _ _ (by omega) (by simp; omega) (by omega)]
    rw [← hk, List.take_append_of_le_length (by simp)]
    simp

/-- C22: for `0 ≤ number ≤ 2^31 - 1` and `1 ≤ digits ≤ 127`, `uart_putint`
writes the decimal representation of `number` behind as many '0' characters as
it is shorter than `digits`, `max(digits, length)` characters in all; for the
negative of such a number other than 0 it writes '-' and then the same. -/
theorem uart_putint_output (n d : Nat) (hn : n ≤ 2 ^ 31 - 1) (hd1 : 1 ≤ d) (hd2 : d ≤ 127)
    (out : List Char) :
    uart_putint (n : Int) (d : Int) out =
        out ++ (List.replicate (d - (Nat.repr n).toList.length) '0' ++ (Nat.repr n).toList) ∧
      (List.replicate (d - (Nat.repr n).toList.length) '0' ++ (Nat.repr n).toList).length =
        max d (Nat.repr n).toList.length ∧
      (0 < n → uart_putint (-(n : Int)) (d : Int) out =
        out ++ ['-'] ++
          (List.replicate (d - (Nat.repr n).toList.length) '0' ++ (Nat.repr n).toList)) := by
  have hn10 : n < 10 ^ 10 := by
    have : (2 : Nat) ^ 31 - 1 < 10 ^ 10 := by norm_num
    omega
  have hmain := uart_putint_padded n d hn10 hd1 hd2
  refine ⟨by rw [hmain]; simp, by simp; omega, ?_⟩
  intro hpos
  have hneg : (-(n : Int)) < 0 := by omega
  have h32 : int32 (-(n : Int) * -1) = (n : Int) := by
    have h2 : (2 : Nat) ^ 31 = 2147483648 := by norm_num
    simp only [int32]
    omega
  have e : uart_putint (-(n : Int)) (d : Int) out = uart_putint (n : Int) (d : Int) (out ++ ['-']) := by
    unfold uart_putint
    have hnn : ¬ ((n : Int) < 0) := by omega
    simp only [hneg, if_true, h32, hnn, if_false, uart_putchar]
  rw [e, hmain]
  simp

theorem uart_putint_output_witness :
    (uart_putint ((5 : Nat) : Int) ((2 : Nat) : Int) [] =
        [] ++ (List.replicate (2 - (Nat.repr 5).toList.length) '0' ++ (Nat.repr 5).toList) ∧
      (List.replicate (2 - (Nat.repr 5).toList.length) '0' ++ (Nat.repr 5).toList).length =
        max 2 (Nat.repr 5).toList.length ∧
      (0 < 5 → uart_putint (-((5 : Nat) : Int)) ((2 : Nat) : Int) [] =
        [] ++ ['-'] ++
          (List.replicate (2 - (Nat.repr 5).toList.length) '0' ++ (Nat.repr 5).toList))) ∧
      [] ++ (List.replicate (2 - (Nat.repr 5).toList.length) '0' ++ (Nat.repr 5).toList) =
        "05".toList ∧
      uart_putint 0 1 [] = "0".toList ∧ uart_putint 2147483647 1 [] = "2147483647".toList :=
  ⟨uart_putint_output 5 2 (by decide) (by decide) (by decide) [], by decide, by decide, by decide⟩

/-- C23: for a frame with `tx.length ≤ 31` and a returned length byte
`rx.length ≤ 30`, the payload loop of `nrf_transmit` ends after
`n = max(tx.length - 1, rx.length) ≤ 30` rounds, one byte exchange each (any
fuel above `n` is enough, so also the 31 of `nrf_transmit`): it never reaches
the out-of-bounds fault the model raises for an index of 30 or more, the
indices it reads in `tx.data` and writes in `rx.data` are `0 .. n - 1`, all
below 30, `rx.data` keeps its 30 bytes, and the counter ends at `n`, below
256. -/
theorem transmit_loop_in_bounds (tx : nrf_tx) (rx : nrf_rx) (b : Bus) (p rest : List Nat)
    (htx : tx.length ≤ 31) (hrx : rx.length ≤ 30) (hdata : rx.data.length = 30)
    (hp : ∀ x ∈ p, x < 256) (hn : p.length = max (tx.length - 1) rx.length)
    (hm : b.miso = p ++ rest) :
    p.length ≤ 30 ∧ p.length < 256 ∧
      (∀ fuel, p.length < fuel →
        transmit_loop tx fuel 0 rx b =
          .ok ({ rx with data := p ++ rx.data.drop p.length },
               { b with miso := rest,
                        mosi := b.mosi ++ (List.range p.length).map (fun j => tx.at j % 256) })) ∧
      (b.mosi ++ (List.range p.length).map (fun j => tx.at j % 256)).length =
        b.mosi.length + p.length ∧
      (∀ j ∈ List.range p.length, j < 30) ∧
      (p ++ rx.data.drop p.length).length = 30 := by
  have h30 : p.length ≤ 30 := by omega
  refine ⟨h30, by omega, ?_, ?_, ?_, ?_⟩
  · intro fuel hf
    rw [transmit_loop_script tx p.length h30 p fuel 0 rx b rest (by simp) hf (by omega) (by omega)
      (by omega) hp hdata hm]
    simp [List.range_eq_range']
  · simp
  · intro j hj
    have := List.mem_range.mp hj
    omega
  · simp; omega

theorem transmit_loop_in_bounds_witness :
    (Reply.mk 0 30 (List.replicate 30 7)).payload.length ≤ 30 ∧
      (Reply.mk 0 30 (List.replicate 30 7)).payload.length < 256 ∧
      (∀ fuel, (Reply.mk 0 30 (List.replicate 30 7)).payload.length < fuel →
        transmit_loop (button_frame 1 1) fuel 0 ⟨0, 30, List.replicate 30 0⟩
            (state_example (List.replicate 30 7 ++ [9])).bus =
          .ok ({ (⟨0, 30, List.replicate 30 0⟩ : nrf_rx) with
                 data := List.replicate 30 7 ++
                   (List.replicate 30 0).drop (Reply.mk 0 30 (List.replicate 30 7)).payload.length },
               { (state_example (List.replicate 30 7 ++ [9])).bus with
                 miso := [9],
                 mosi := (state_example (List.replicate 30 7 ++ [9])).bus.mosi ++
                   (List.range (Reply.mk 0 30 (List.replicate 30 7)).payload.length).map
                     (fun j => (button_frame 1 1).at j % 256) })) ∧
      ((state_example (List.replicate 30 7 ++ [9])).bus.mosi ++
          (List.range (Reply.mk 0 30 (List.replicate 30 7)).payload.length).map
            (fun j => (button_frame 1 1).at j % 256)).length =
        (state_example (List.replicate 30 7 ++ [9])).bus.mosi.length +
          (Reply.mk 0 30 (List.replicate 30 7)).payload.length ∧
      (∀ j ∈ List.range (Reply.mk 0 30 (List.replicate 30 7)).payload.length, j < 30) ∧
      (List.replicate 30 7 ++
        (List.replicate 30 0).drop (Reply.mk 0 30 (List.replicate 30 7)).payload.length).length =
          30 :=
  transmit_loop_in_bounds (button_frame 1 1) ⟨0, 30, List.replicate 30 0⟩
    (state_example (List.replicate 30 7 ++ [9])).bus (List.replicate 30 7) [9]
    (by decide) (by decide) (by decide) (by decide) (by decide) rfl

/-- C21, at failing inputs: with 15 pipes of which only pipe 15 is a local TX
pipe, `nrf_tx_map_pipes` leaves 0xFFFFFFFFFFFF8000, so bits 16 to 63, all
above N = 15, are set; with 16 pipes of which only pipe 16 is a local TX pipe
it leaves 0, so bit 16 is clear. -/
theorem nrf_tx_map_pipes_16bit :
    (nrf_tx_map_pipes (services_pipes (List.replicate 14 ⟨2, 8⟩ ++ [⟨1, 2⟩]))
        (state_example [])).nrf_tx_pipe_map = 0xFFFFFFFFFFFF8000 ∧
      Nat.testBit 0xFFFFFFFFFFFF8000 16 = true ∧
      (nrf_tx_map_pipes (services_pipes (List.replicate 15 ⟨2, 8⟩ ++ [⟨1, 2⟩]))
        (state_example [])).nrf_tx_pipe_map = 0 := by
  decide

theorem foldl_mask (f : Nat → Nat → Nat) (l : List Nat) (s : State) :
    l.foldl (fun s i => { s with nrf_tx_pipe_map := f s.nrf_tx_pipe_map i }) s =
      { s with nrf_tx_pipe_map := l.foldl f s.nrf_tx_pipe_map } := by
  induction l generalizing s with
  | nil => rfl
  | cons x l ih => rw [List.foldl_cons, ih]; rfl

/-- The mask `nrf_tx_map_pipes` leaves, as a fold over the pipe indices. -/
theorem nrf_tx_map_pipes_mask (cfg : Services) (s : State) :
    nrf_tx_map_pipes cfg s =
      { s with nrf_tx_pipe_map :=
          (List.range cfg.NUMBER_OF_PIPES).foldl (tx_map_step cfg) s.nrf_tx_pipe_map } := by
  unfold nrf_tx_map_pipes
  rw [← foldl_mask (tx_map_step cfg)]
  congr 1
  funext s i
  unfold tx_map_step
  split <;> rfl

theorem shl_one_small (j : Nat) (hj : j ≤ 14) : to_u64 (int_shl 1 j) = 2 ^ j := by
  interval_cases j <;> rfl

/-- With at most 14 pipes the mask has bit `k` set exactly for the local TX
pipes `k` from 1 to N. -/
theorem tx_map_bits (cfg : Services) :
    ∀ (N : Nat), N ≤ 14 → ∀ k,
      ((List.range N).foldl (tx_map_step cfg) 0).testBit k =
        decide (1 ≤ k ∧ k ≤ N ∧ (service_pipe_map cfg (k - 1)).store = cfg.ACI_STORE_LOCAL ∧
          (service_pipe_map cfg (k - 1)).type = cfg.ACI_TX) := by
  intro N
  induction N with
  | zero =>
    intro _ k
    simp
    omega
  | succ n ih =>
    intro hn k
    rw [List.range_succ, List.foldl_append, List.foldl_cons, List.foldl_nil]
    have h := ih (by omega) k
    generalize List.foldl (tx_map_step cfg) 0 (List.range n) = M at h ⊢
    unfold tx_map_step
    split
    · rename_i hc
      rw [shl_one_small (n + 1) hn, Nat.testBit_or, h, Nat.testBit_two_pow]
      by_cases hk : k = n + 1
      · subst hk
        simp [hc]
      · have hk' : ¬ (n + 1 = k) := fun e => hk e.symm
        simp only [hk', decide_False, Bool.or_false]
        congr 1
        apply propext
        constructor
        · rintro ⟨a, b, c⟩; exact ⟨a, by omega, c⟩
        · rintro ⟨a, b, c⟩; exact ⟨a, by omega, c⟩
    · rename_i hc
      rw [h]
      congr 1
      apply propext
      constructor
      · rintro ⟨a, b, c⟩; exact ⟨a, by omega, c⟩
      · rintro ⟨a, b, c⟩
        refine ⟨a, ?_, c⟩
        by_contra hlt
        have hk : k = n + 1 := by omega
        subst hk
        exact hc (by simpa using c)

theorem tx_map_fold_or (cfg : Services) (l : List Nat) (m : Nat) :
    l.foldl (tx_map_step cfg) m = m ||| l.foldl (tx_map_step cfg) 0 := by
  induction l generalizing m with
  | nil => simp
  | cons x l ih =>
    rw [List.foldl_cons, List.foldl_cons, ih (tx_map_step cfg m x), ih (tx_map_step cfg 0 x)]
    unfold tx_map_step
    split
    · simp [Nat.lor_assoc]
    · simp

/-- What holds of `nrf_tx_map_pipes` in the model: with at most 14 pipes and
the mask initially 0, bit `k` is set exactly when `1 ≤ k ≤ N` and pipe `k` is a
local TX pipe; and for every table a second run leaves the mask of the
first. -/
theorem nrf_tx_map_pipes_small (cfg : Services) (s : State) :
    (cfg.NUMBER_OF_PIPES ≤ 14 → s.nrf_tx_pipe_map = 0 → ∀ k,
        (nrf_tx_map_pipes cfg s).nrf_tx_pipe_map.testBit k = true ↔
          1 ≤ k ∧ k ≤ cfg.NUMBER_OF_PIPES ∧
            (service_pipe_map cfg (k - 1)).store = cfg.ACI_STORE_LOCAL ∧
            (service_pipe_map cfg (k - 1)).type = cfg.ACI_TX) ∧
      (nrf_tx_map_pipes cfg (nrf_tx_map_pipes cfg s)).nrf_tx_pipe_map =
        (nrf_tx_map_pipes cfg s).nrf_tx_pipe_map := by
  constructor
  · intro hN h0 k
    rw [nrf_tx_map_pipes_mask]
    simp only [h0]
    rw [tx_map_bits cfg _ hN k]
    simp
  · rw [nrf_tx_map_pipes_mask, nrf_tx_map_pipes_mask]
    simp only
    rw [tx_map_fold_or cfg _ (List.foldl _ _ _), tx_map_fold_or cfg _ s.nrf_tx_pipe_map,
      Nat.lor_assoc, Nat.or_self]

end Nrf8001
